import Mathlib

/-!
Verification development for the doc2slides backend.

The TypeScript sources under `backend/src` are embedded shallowly:

* pure functions (`extractDocumentId`, `extractTextFromDocument`,
  `buildExecutivePrompt`, the mock-slide generator, the model-response
  cleaning/validation pipeline, the Slides batch-request assembly) are
  translated directly into Lean functions;
* external effects (the `fetch` calls of the Docs/Drive fallback chain, the
  Gemini model call, `JSON.parse`, and the Slides API) are modelled as
  explicit environment records holding the responses the outside world would
  return, so every embedded function is a pure function of its inputs and of
  that environment;
* JavaScript strings are modelled as Lean `String`/`List Char`;
  JavaScript's `.trim()` is modelled by `jsTrim` (whitespace as judged by
  `Char.isWhitespace`); JavaScript truthiness of optional strings/numbers is
  modelled by the explicit `truthyString`/`orDefault` helpers below;
* JSON values produced by `JSON.parse` are modelled by the inductive `JVal`.
-/

/-! ## JavaScript string and truthiness helpers -/

/-- JavaScript `s.trim()` on the character-list view: drop whitespace from
both ends. -/
def jsTrimBoth (l : List Char) : List Char :=
  ((l.dropWhile Char.isWhitespace).reverse.dropWhile Char.isWhitespace).reverse

/-- JavaScript `s.trim()` for `String`. -/
def jsTrim (s : String) : String :=
  String.mk (jsTrimBoth s.data)

/-- JavaScript truthiness of a possibly-missing string (`undefined` and `""`
are falsy). -/
def truthyString : Option String → Bool
  | none => false
  | some s => s ≠ ""

/-- JavaScript truthiness of a possibly-missing number (`undefined` and `0`
are falsy). -/
def truthyNat : Option Nat → Bool
  | none => false
  | some n => n ≠ 0

/-- JavaScript `v || d` for a possibly-missing string `v` and default `d`. -/
def orDefault (v : Option String) (d : String) : String :=
  match v with
  | some s => if s = "" then d else s
  | none => d

/-- Scan for an occurrence of `pat` anywhere in `l`
(JavaScript `String.prototype.includes`). -/
def containsScan (pat : List Char) : List Char → Bool
  | [] => pat.isEmpty
  | c :: cs => pat.isPrefixOf (c :: cs) || containsScan pat cs

/-- JavaScript `s.includes(pat)`. -/
def containsSubstring (s pat : String) : Bool :=
  containsScan pat.data s.data

/-- The backtick character, obtained from a string literal. -/
def backtickChar : Char :=
  "`".data.headD ' '

/-! ## Data model (`backend/src/types/index.ts`) -/

/-- `SlideContent` from `types/index.ts`. -/
structure SlideContent where
  title : String
  bullets : List String
deriving Repr, DecidableEq

/-- `PresentationStructure` from `types/index.ts`. -/
structure PresentationStructure where
  title : String
  slides : List SlideContent
deriving Repr, DecidableEq

/-- `GoogleDocsContent` from `types/index.ts`. -/
structure GoogleDocsContent where
  title : String
  content : String
deriving Repr, DecidableEq

/-- `DocsErrorCode` from `types/index.ts`. -/
inductive DocsErrorCode where
  | INVALID_URL
  | DOCUMENT_NOT_FOUND
  | ACCESS_DENIED
deriving Repr, DecidableEq

/-- The `DocsError` class from `services/docs.ts`: an error kind, a message
and an HTTP-equivalent status. -/
structure DocsError where
  code : DocsErrorCode
  message : String
  httpStatus : Nat
deriving Repr, DecidableEq

/-! ## URL parsing (`services/docs.ts`, `extractDocumentId`) -/

/-- Character class `[a-zA-Z0-9_-]` of the document-id regular expression. -/
def isIdChar (c : Char) : Bool :=
  c.isAlpha || c.isDigit || c = '_' || c = '-'

/-- The literal part of the pattern
`/docs\.google\.com\/document\/d\/([a-zA-Z0-9_-]+)/`. -/
def docIdPattern : List Char :=
  "docs.google.com/document/d/".data

/-- Left-to-right regular-expression scan of `url.match(pattern)`: at each
position, the literal must match and at least one id character must follow;
otherwise the scan moves one character right. -/
def scanDocId : List Char → Option (List Char)
  | [] => none
  | c :: cs =>
    if docIdPattern.isPrefixOf (c :: cs) then
      let found := (List.drop docIdPattern.length (c :: cs)).takeWhile isIdChar
      if found.isEmpty then scanDocId cs else some found
    else scanDocId cs

/-- `extractDocumentId` from `services/docs.ts`: return the captured id, or
throw `DocsError("INVALID_URL", "Invalid Google Docs URL format", 400)`. -/
def extractDocumentId (url : String) : Except DocsError String :=
  match scanDocId url.data with
  | some found => Except.ok (String.mk found)
  | none => Except.error ⟨DocsErrorCode.INVALID_URL, "Invalid Google Docs URL format", 400⟩

/-- The condition under which the unanchored regular expression can match:
somewhere in `l`, the literal pattern is immediately followed by at least
one id character.  Used to state exactly which URLs fail with
`INVALID_URL`. -/
def hasDocIdMatch (l : List Char) : Prop :=
  ∃ s t c, l = s ++ (docIdPattern ++ (c :: t)) ∧ isIdChar c = true

/-! ## Docs API document shape and text extraction (`services/docs.ts`) -/

/-- `textRun` object: optional `content` string. -/
structure TextRun where
  content : Option String
deriving Repr, DecidableEq

/-- An element of `paragraph.elements`: optional `textRun`. -/
structure ParagraphElement where
  textRun : Option TextRun
deriving Repr, DecidableEq

/-- `DocsApiParagraph`: optional `elements` array. -/
structure DocsApiParagraph where
  elements : Option (List ParagraphElement)
deriving Repr, DecidableEq

/-- `DocsApiContent`: optional `paragraph`. -/
structure DocsApiContent where
  paragraph : Option DocsApiParagraph
deriving Repr, DecidableEq

/-- The `body` field of the Docs API response: optional `content` array. -/
structure DocsApiBody where
  content : Option (List DocsApiContent)
deriving Repr, DecidableEq

/-- `DocsApiResponse`: optional `title` and optional `body`. -/
structure DocsApiResponse where
  title : Option String
  body : Option DocsApiBody
deriving Repr, DecidableEq

/-- Contribution of one paragraph element: `textElement.textRun?.content`
is appended only when present and truthy (a present empty string is skipped
by the truthiness test, contributing nothing either way). -/
def textRunContribution (el : ParagraphElement) : String :=
  match el.textRun with
  | some tr =>
    match tr.content with
    | some s => if s = "" then "" else s
    | none => ""
  | none => ""

/-- One step of the text-extraction walk: the body of the
`for (const element of content)` loop, appending the paragraph's text-run
contents to the accumulator. -/
def contentFoldStep (text : String) (el : DocsApiContent) : String :=
  match el.paragraph with
  | some paragraph =>
    match paragraph.elements with
    | some els => els.foldl (fun t e => t ++ textRunContribution e) text
    | none => text
  | none => text

/-- `extractTextFromDocument` from `services/docs.ts`: walk
`body?.content || []`, append every truthy `textRun.content` in order into
one accumulator, and trim the result. -/
def extractTextFromDocument (document : DocsApiResponse) : String :=
  let content := (document.body.bind DocsApiBody.content).getD []
  jsTrim (content.foldl contentFoldStep "")

/-- Concatenation of a list of strings with no separator. -/
def joinAll : List String → String
  | [] => ""
  | s :: rest => s ++ joinAll rest

/-- The `textRun.content` fragments contributed by one `body.content`
element, in order. -/
def contentItemFragments (el : DocsApiContent) : List String :=
  match el.paragraph with
  | some paragraph =>
    match paragraph.elements with
    | some els => els.map textRunContribution
    | none => []
  | none => []

/-- Modelled from the spec wording for text extraction: the list of all
`textRun.content` fragments of the document, in document order.  Used to
state the specification of `extractTextFromDocument`. -/
def specTextFragments (document : DocsApiResponse) : List String :=
  ((document.body.bind DocsApiBody.content).getD []).flatMap contentItemFragments

/-- The two-paragraph example document of the text-extraction property
(paragraph texts `"Line 1\n"` and `"Line 2"`). -/
def twoParagraphsDoc : DocsApiResponse :=
  ⟨some "Test Document",
   some ⟨some [⟨some ⟨some [⟨some ⟨some "Line 1\n"⟩⟩]⟩⟩,
               ⟨some ⟨some [⟨some ⟨some "Line 2"⟩⟩]⟩⟩]⟩⟩

/-! ## Fetch fallback chain (`services/docs.ts`)

The three HTTP round trips of `fetchGoogleDocsContent` (primary Docs API
call, Drive metadata call, Drive export call) and the unauthenticated public
export call are modelled by an environment `FetchEnv` holding the response
each URL would produce. -/

/-- A fetch response whose body has already been decoded as `α`
(`response.json()` / `response.text()`). -/
structure HttpResponse (α : Type) where
  ok : Bool
  status : Nat
  statusText : String
  body : α
deriving Repr, DecidableEq

/-- Body of the Drive metadata response: optional `name`. -/
structure DriveMetadata where
  name : Option String
deriving Repr, DecidableEq

/-- Response of the unauthenticated public export fetch, with the
`content-type` header (`headers.get("content-type") || ""`) and text body. -/
structure PublicExportResponse where
  ok : Bool
  status : Nat
  contentType : String
  body : String
deriving Repr, DecidableEq

/-- Responses the outside world returns for the four URLs
`fetchGoogleDocsContent` may fetch. -/
structure FetchEnv where
  primary : HttpResponse DocsApiResponse
  metadata : HttpResponse DriveMetadata
  driveExport : HttpResponse String
  publicExport : PublicExportResponse
deriving Repr, DecidableEq

/-- Error message of the shared "must be shared as Anyone with the link"
access failure. -/
def accessDeniedShareMsg : String :=
  "No permission to access document. The document must be shared as 'Anyone with the link' with at least Viewer access."

/-- `fetchViaPublicExport` from `services/docs.ts`: unauthenticated fetch of
`document/d/{id}/export?format=txt`. -/
def fetchViaPublicExport (resp : PublicExportResponse) : Except DocsError GoogleDocsContent :=
  if resp.ok = false then
    if resp.status = 404 then
      Except.error ⟨DocsErrorCode.DOCUMENT_NOT_FOUND, "Document not found", 400⟩
    else
      Except.error ⟨DocsErrorCode.ACCESS_DENIED, accessDeniedShareMsg, 403⟩
  else if containsSubstring resp.contentType "text/html" then
    Except.error ⟨DocsErrorCode.ACCESS_DENIED, accessDeniedShareMsg, 403⟩
  else if resp.body = "" || jsTrim resp.body = "" then
    Except.error ⟨DocsErrorCode.ACCESS_DENIED, "Could not retrieve document content. Please ensure the document is shared as 'Anyone with the link'.", 403⟩
  else
    Except.ok ⟨"Imported Document", jsTrim resp.body⟩

/-- `fetchViaDriveExport` from `services/docs.ts`: Drive metadata call, then
Drive plain-text export; on failure of either call it falls back to
`fetchViaPublicExport`. -/
def fetchViaDriveExport (env : FetchEnv) : Except DocsError GoogleDocsContent :=
  if env.metadata.ok = false then
    fetchViaPublicExport env.publicExport
  else
    let title := orDefault env.metadata.body.name "Untitled Document"
    if env.driveExport.ok = false then
      fetchViaPublicExport env.publicExport
    else
      Except.ok ⟨title, jsTrim env.driveExport.body⟩

/-- `fetchGoogleDocsContent` from `services/docs.ts`: extract the id, fetch
the primary Docs API document, and dispatch on the response status. -/
def fetchGoogleDocsContent (url : String) (env : FetchEnv) : Except DocsError GoogleDocsContent :=
  match extractDocumentId url with
  | Except.error e => Except.error e
  | Except.ok _documentId =>
    let response := env.primary
    if response.ok = false then
      if response.status = 404 then
        Except.error ⟨DocsErrorCode.DOCUMENT_NOT_FOUND, "Document not found", 400⟩
      else if response.status = 403 || response.status = 401 then
        fetchViaDriveExport env
      else
        Except.error ⟨DocsErrorCode.ACCESS_DENIED, "Failed to fetch document: " ++ response.statusText, response.status⟩
    else
      let document := response.body
      let content := extractTextFromDocument document
      let title := orDefault document.title "Untitled Document"
      Except.ok ⟨title, content⟩

/-! ## Prompt builder (`services/prompts.ts`) -/

/-- Template text before the first `${slideCount}` interpolation. -/
def promptSeg1 : String :=
  "You are an expert at creating executive presentations. Your task is to analyze the following document and extract the most critical information for a "

/-- Template text between the first and second `${slideCount}`
interpolations. -/
def promptSeg2 : String :=
  "-slide presentation targeting tech company executives.\n\nREQUIREMENTS:\n1. Create exactly "

/-- Template text between the second `${slideCount}` interpolation and the
optional additional-instructions block. -/
def promptSeg3 : String :=
  " slides (not including the title slide)\n2. Each slide must have:\n   - A clear, concise title (max 8 words)\n   - 3-5 bullet points (max 15 words each)\n3. Focus on:\n   - Key decisions and recommendations\n   - Quantifiable metrics, outcomes, and KPIs\n   - Strategic implications and business impact\n   - Action items and next steps\n4. Executives have limited time - every word must earn its place\n5. Lead with the most important information (inverted pyramid)\n6. Use active voice and strong verbs\n7. Avoid jargon unless industry-standard\n\n"

/-- Heading line of the additional-instructions block. -/
def instructionsHeading : String :=
  "ADDITIONAL INSTRUCTIONS FROM USER:\n"

/-- Template text between the optional block and `${content}`. -/
def promptSeg4 : String :=
  "\n\nDOCUMENT CONTENT:\n"

/-- Template text after `${content}` (the output-format instructions). -/
def promptSeg5 : String :=
  "\n\nOUTPUT FORMAT:\nRespond with valid JSON only, no markdown code blocks. Use this exact structure:\n\x7b\n  \"slides\": [\n    \x7b\n      \"title\": \"Slide Title Here\",\n      \"bullets\": [\n        \"First key point\",\n        \"Second key point\",\n        \"Third key point\"\n      ]\n    \x7d\n  ]\n\x7d"

/-- The interpolation
`${customPrompt ? `ADDITIONAL INSTRUCTIONS FROM USER:\n${customPrompt}\n` : ""}`:
present exactly when `customPrompt` is a truthy (non-empty) string. -/
def instructionsBlock (customPrompt : Option String) : String :=
  match customPrompt with
  | some s => if s = "" then "" else instructionsHeading ++ s ++ "\n"
  | none => ""

/-- `buildExecutivePrompt` from `services/prompts.ts`. -/
def buildExecutivePrompt (content : String) (slideCount : Nat) (customPrompt : Option String) : String :=
  promptSeg1 ++ toString slideCount ++ promptSeg2 ++ toString slideCount ++ promptSeg3
    ++ instructionsBlock customPrompt ++ promptSeg4 ++ content ++ promptSeg5

/-! ## Summarizer (`services/claude.ts` / the Gemini module) -/

/-- JSON values, as produced by `JSON.parse`. -/
inductive JVal where
  | jnull
  | jbool (b : Bool)
  | jnum (n : Int)
  | jstr (s : String)
  | jarr (elems : List JVal)
  | jobj (fields : List (String × JVal))

/-- JavaScript truthiness of a JSON value (arrays and objects are always
truthy). -/
def jtruthy : JVal → Bool
  | JVal.jnull => false
  | JVal.jbool b => b
  | JVal.jnum n => n ≠ 0
  | JVal.jstr s => s ≠ ""
  | JVal.jarr _ => true
  | JVal.jobj _ => true

/-- JavaScript property access `v.key` on a parsed JSON value: defined only
on objects, `undefined` (here `none`) otherwise. -/
def jget (v : JVal) (key : String) : Option JVal :=
  match v with
  | JVal.jobj fields => fields.lookup key
  | _ => none

/-- A validated slide of the model response.  The slide title is whatever
truthy JSON value the model supplied (the code does not check that it is a
string); the bullets kept by the filter are strings. -/
structure ModelSlide where
  title : JVal
  bullets : List String

/-- The value returned by `summarizeDocument`: caller-supplied title plus
validated slides. -/
structure ModelPresentation where
  title : String
  slides : List ModelSlide

/-- `sampleTitles` of `generateMockSlides`. -/
def sampleTitles : List String :=
  ["Executive Summary", "Key Findings", "Market Analysis", "Financial Overview",
   "Strategic Initiatives", "Risk Assessment", "Timeline & Milestones",
   "Resource Requirements", "Expected Outcomes", "Next Steps"]

/-- `sampleBullets` of `generateMockSlides`. -/
def sampleBullets : List (List String) :=
  [["Revenue increased 25% quarter-over-quarter", "Customer acquisition cost reduced by 15%", "Net promoter score improved to 72"],
   ["Market share expanded to 18% in core segments", "Three new enterprise clients onboarded", "Product adoption rate exceeded targets by 20%"],
   ["Competitive landscape remains favorable", "New market opportunities identified in APAC", "Brand awareness increased 30% YoY"],
   ["Operating margin improved to 22%", "Cash reserves at $50M", "Debt-to-equity ratio at healthy 0.3"],
   ["Digital transformation 60% complete", "New product launch scheduled Q2", "Partnership discussions advancing with key players"]]

/-- `generateMockSlides`: `slideCount` canned slides drawn cyclically from
the sample pools, with the caller-supplied title. -/
def generateMockSlides (title : String) (slideCount : Nat) : ModelPresentation :=
  { title := title,
    slides := (List.range slideCount).map fun i =>
      { title := JVal.jstr (sampleTitles.getD (i % sampleTitles.length) ""),
        bullets := sampleBullets.getD (i % sampleBullets.length) [] } }

/-- `shouldUseMock`: no `GEMINI_API_KEY`, or a blank one. -/
def shouldUseMock (apiKey : Option String) : Bool :=
  match apiKey with
  | none => true
  | some k => k = "" || jsTrim k = ""

/-- `"```json".data`, the 7-character fence prefix stripped first. -/
def fence7 : List Char :=
  "```json".data

/-- `"```".data`, the 3-character fence delimiter. -/
def fence3 : List Char :=
  "```".data

/-- The markdown-fence cleanup of `summarizeDocument` on the character-list
view: trim, strip a leading `` ```json `` (7 chars) or `` ``` `` (3 chars),
strip a trailing `` ``` ``, and trim again (the second trim is the
`jsonStr.trim()` inside the `JSON.parse` call). -/
def cleanModelData (l : List Char) : List Char :=
  let j0 := jsTrimBoth l
  let j1 := if fence7.isPrefixOf j0 then j0.drop 7 else j0
  let j2 := if fence3.isPrefixOf j1 then j1.drop 3 else j1
  let j3 := if fence3.isSuffixOf j2 then j2.take (j2.length - 3) else j2
  jsTrimBoth j3

/-- The markdown-fence cleanup for `String`. -/
def cleanModelText (text : String) : String :=
  String.mk (cleanModelData text.data)

/-- The bullets filter `slide.bullets.filter((b) => typeof b === "string" && b.trim())`:
keep exactly the string entries whose trimmed form is non-empty, verbatim. -/
def filterBullets (bullets : List JVal) : List String :=
  bullets.filterMap fun b =>
    match b with
    | JVal.jstr s => if jsTrim s = "" then none else some s
    | _ => none

/-- Validation of one slide at `index`:
`if (!slide.title || !Array.isArray(slide.bullets)) throw ...`. -/
def validateSlide (index : Nat) (slide : JVal) : Except String ModelSlide :=
  match jget slide "title" with
  | some t =>
    if jtruthy t then
      match jget slide "bullets" with
      | some (JVal.jarr bs) => Except.ok ⟨t, filterBullets bs⟩
      | _ => Except.error ("Invalid slide structure at index " ++ toString index)
    else Except.error ("Invalid slide structure at index " ++ toString index)
  | none => Except.error ("Invalid slide structure at index " ++ toString index)

/-- `parsed.slides.map((slide, index) => ...)` with a thrown error aborting
the whole map at the first offending index. -/
def validateSlides (index : Nat) : List JVal → Except String (List ModelSlide)
  | [] => Except.ok []
  | s :: rest =>
    match validateSlide index s with
    | Except.error e => Except.error e
    | Except.ok m =>
      match validateSlides (index + 1) rest with
      | Except.error e => Except.error e
      | Except.ok ms => Except.ok (m :: ms)

/-- External world of the summarizer: the text the model returns for the
generated prompt, and `JSON.parse` (`none` models a parse exception). -/
structure GeminiEnv where
  responseText : String
  parseJson : String → Option JVal

/-- `summarizeDocument` from the Gemini module: mock mode when no API key is
configured; otherwise build the prompt, require a non-empty model response,
strip markdown fences, parse as JSON, validate the `slides` array, and
return the caller-supplied title with the validated slides. -/
def summarizeDocument (apiKey : Option String) (env : GeminiEnv)
    (content : String) (title : String) (slideCount : Nat)
    (customPrompt : Option String) : Except String ModelPresentation :=
  if shouldUseMock apiKey then
    Except.ok (generateMockSlides title slideCount)
  else
    let _prompt := buildExecutivePrompt content slideCount customPrompt
    let text := env.responseText
    if text = "" then
      Except.error "No response from Gemini"
    else
      match env.parseJson (cleanModelText text) with
      | none => Except.error ("Failed to parse Gemini response as JSON: " ++ text)
      | some parsed =>
        match jget parsed "slides" with
        | some (JVal.jarr slidesArr) =>
          match validateSlides 0 slidesArr with
          | Except.error e => Except.error e
          | Except.ok slides => Except.ok ⟨title, slides⟩
        | _ => Except.error "Invalid response structure: missing slides array"

/-! ## Preview route handler (`routes/generate.ts`, `POST /preview`) -/

/-- The JSON body of a preview request; absent fields are `none`. -/
structure PreviewBody where
  documentContent : Option String
  documentTitle : Option String
  slideCount : Option Nat
  customPrompt : Option String

/-- Outcome of the preview handler: HTTP 400, HTTP 500, or a success
payload. -/
inductive PreviewResult where
  | badRequest (error : String)
  | serverError (error : String)
  | success (structure_ : ModelPresentation)

/-- The `POST /preview` handler: require truthy `documentContent`,
`documentTitle` and `slideCount`, then summarize; render errors as 500. -/
def previewHandler (apiKey : Option String) (env : GeminiEnv) (body : PreviewBody) : PreviewResult :=
  if truthyString body.documentContent = false
      || truthyString body.documentTitle = false
      || truthyNat body.slideCount = false then
    PreviewResult.badRequest "Missing required fields"
  else
    match summarizeDocument apiKey env (body.documentContent.getD "")
        (body.documentTitle.getD "") (body.slideCount.getD 0) body.customPrompt with
    | Except.error e => PreviewResult.serverError e
    | Except.ok s => PreviewResult.success s

/-! ## Presentation builder (`services/slides.ts`)

Colors in the source are RGB components written as decimal fractions of 1
(e.g. `0.15`, `0.98`); they are carried as opaque payload data, so they are
modelled exactly as hundredths (`0.15` ↦ `15`, `1` ↦ `100`). -/

/-- `RgbColor`, components in hundredths of the source's 0..1 scale. -/
structure RgbColor where
  red : Nat
  green : Nat
  blue : Nat
deriving Repr, DecidableEq

/-- `TemplateConfig` as used by `services/slides.ts`.  The four
`titleSlide...`/header fields are read through `||` fallbacks or truthiness
guards there, hence optional. -/
structure TemplateConfig where
  name : String
  description : String
  titleColor : RgbColor
  bodyColor : RgbColor
  backgroundColor : RgbColor
  titleSlideBackgroundColor : Option RgbColor
  titleSlideTextColor : Option RgbColor
  headerColor : Option RgbColor
  titleColorWithHeader : Option RgbColor
deriving Repr, DecidableEq

/-- The five template ids of `SlideTemplate`. -/
inductive SlideTemplate where
  | modern
  | corporate
  | creative
  | minimal
  | executive
deriving Repr, DecidableEq

/-- The `SLIDE_TEMPLATES` record (`types/index.ts`).  The optional extended
fields read by `services/slides.ts` are not present in the repository's
types file, so they are `none` here. -/
def SLIDE_TEMPLATES : SlideTemplate → TemplateConfig
  | SlideTemplate.modern =>
    ⟨"Modern", "Clean, minimalist design with blue accents",
     ⟨10, 30, 60⟩, ⟨20, 20, 20⟩, ⟨100, 100, 100⟩, none, none, none, none⟩
  | SlideTemplate.corporate =>
    ⟨"Corporate", "Professional design with dark headers",
     ⟨15, 15, 15⟩, ⟨30, 30, 30⟩, ⟨98, 98, 98⟩, none, none, none, none⟩
  | SlideTemplate.creative =>
    ⟨"Creative", "Bold colors and dynamic style",
     ⟨80, 20, 40⟩, ⟨25, 25, 25⟩, ⟨100, 98, 95⟩, none, none, none, none⟩
  | SlideTemplate.minimal =>
    ⟨"Minimal", "Simple black and white design",
     ⟨0, 0, 0⟩, ⟨30, 30, 30⟩, ⟨100, 100, 100⟩, none, none, none, none⟩
  | SlideTemplate.executive =>
    ⟨"Executive", "Traditional executive presentation style",
     ⟨10, 20, 40⟩, ⟨20, 20, 20⟩, ⟨95, 95, 97⟩, none, none, none, none⟩

/-- `getTemplateConfig`: `SLIDE_TEMPLATES[template || "modern"]`. -/
def getTemplateConfig (template : Option SlideTemplate) : TemplateConfig :=
  SLIDE_TEMPLATES (template.getD SlideTemplate.modern)

/-- One entry of the `requests` array assembled for the batch update.  Each
constructor corresponds to one request literal pushed in
`services/slides.ts`, keeping every datum that varies between pushes. -/
inductive SlideRequest where
  | updatePageProperties (objectId : String) (backgroundColor : RgbColor)
  | insertText (objectId : String) (text : String) (insertionIndex : Nat)
  | updateTextStyle (objectId : String) (color : RgbColor) (bold : Bool) (fontSizePt : Nat)
  | createSlide (objectId : String) (insertionIndex : Nat) (titleId : String) (bodyId : String)
  | createShape (objectId : String) (pageObjectId : String) (heightPt : Nat) (widthPt : Nat)
  | updateShapeProperties (objectId : String) (backgroundColor : RgbColor)
  | updatePageElementTransform (objectId : String) (translateX : Nat) (translateY : Nat)
  | createParagraphBullets (objectId : String)
deriving Repr, DecidableEq

/-- The requests for the default title slide: background color, and — when a
title placeholder was found — title text and style. -/
def titleSlideRequests (cfg : TemplateConfig) (structureTitle : String)
    (titleSlideId : Option String) (titleShapeId : Option String) : List SlideRequest :=
  if truthyString titleSlideId then
    let tid := titleSlideId.getD ""
    let titleBg := cfg.titleSlideBackgroundColor.getD cfg.backgroundColor
    [SlideRequest.updatePageProperties tid titleBg] ++
      (if truthyString titleShapeId then
        let sid := titleShapeId.getD ""
        let titleTextColor := cfg.titleSlideTextColor.getD cfg.titleColor
        [SlideRequest.insertText sid structureTitle 0,
         SlideRequest.updateTextStyle sid titleTextColor true 44]
      else [])
  else []

/-- The requests pushed by one iteration of the content-slide loop
(`for (let i = 0; i < structure.slides.length; i++)`). -/
def contentSlideRequests (cfg : TemplateConfig) (i : Nat) (slide : SlideContent) : List SlideRequest :=
  let slideId := "slide_" ++ toString i
  let titleId := "title_" ++ toString i
  let bodyId := "body_" ++ toString i
  let headerShapeId := "header_" ++ toString i
  let titleY := if cfg.headerColor.isSome then 10 else 25
  let bodyY := if cfg.headerColor.isSome then 80 else 90
  let titleTextColor :=
    match cfg.headerColor with
    | some _ => cfg.titleColorWithHeader.getD ⟨100, 100, 100⟩
    | none => cfg.titleColor
  let bulletText := String.intercalate "\n" slide.bullets
  [SlideRequest.createSlide slideId (i + 1) titleId bodyId,
   SlideRequest.updatePageProperties slideId cfg.backgroundColor] ++
    (match cfg.headerColor with
     | some hc =>
       [SlideRequest.createShape headerShapeId slideId 60 720,
        SlideRequest.updateShapeProperties headerShapeId hc]
     | none => []) ++
    [SlideRequest.updatePageElementTransform titleId 36 titleY,
     SlideRequest.updatePageElementTransform bodyId 36 bodyY,
     SlideRequest.insertText titleId slide.title 0,
     SlideRequest.updateTextStyle titleId titleTextColor true 28,
     SlideRequest.insertText bodyId bulletText 0,
     SlideRequest.updateTextStyle bodyId cfg.bodyColor false 18,
     SlideRequest.createParagraphBullets bodyId]

/-- The full `requests` array: title-slide requests, then the content-slide
requests in input order. -/
def buildSlideRequests (cfg : TemplateConfig) (structure_ : PresentationStructure)
    (titleSlideId : Option String) (titleShapeId : Option String) : List SlideRequest :=
  titleSlideRequests cfg structure_.title titleSlideId titleShapeId ++
    structure_.slides.enum.flatMap fun p => contentSlideRequests cfg p.1 p.2

/-- A page element of the created presentation's default slide, with the
observable `el.shape?.placeholder?.type` chain flattened to an optional
string. -/
structure PageElementInfo where
  objectId : Option String
  placeholderType : Option String
deriving Repr, DecidableEq

/-- A slide of the create response. -/
structure CreatedSlideInfo where
  objectId : Option String
  pageElements : Option (List PageElementInfo)
deriving Repr, DecidableEq

/-- `presentation.data` of the `presentations.create` response. -/
structure CreateResponse where
  presentationId : Option String
  slides : Option (List CreatedSlideInfo)
deriving Repr, DecidableEq

/-- External world of `createPresentation`: the create response, and the
outcome of the one batch update (an `Except` so a batch failure carries the
thrown message). -/
structure SlidesEnv where
  createResponse : CreateResponse
  batchResult : Except String Unit

/-- One Slides API round trip issued by `createPresentation`. -/
inductive SlidesApiCall where
  | createPresentationCall (title : String)
  | batchUpdateCall (presentationId : String) (requests : List SlideRequest)
deriving Repr, DecidableEq

/-- `CreatePresentationParams` from `services/slides.ts`. -/
structure CreatePresentationParams where
  structure_ : PresentationStructure
  accessToken : String
  userEmail : String
  template : Option SlideTemplate

/-- `CreatePresentationResult` from `services/slides.ts`. -/
structure CreatePresentationResult where
  slidesUrl : String
  slidesId : String
deriving Repr, DecidableEq

/-- `presentation.data.slides?.[0]?.objectId`. -/
def findTitleSlideId (resp : CreateResponse) : Option String :=
  match resp.slides with
  | some (s0 :: _) => s0.objectId
  | _ => none

/-- `presentation.data.slides?.[0]?.pageElements?.find((el) => el.shape?.placeholder?.type === "CENTERED_TITLE" || ... === "TITLE")?.objectId`. -/
def findTitleShapeId (resp : CreateResponse) : Option String :=
  match resp.slides with
  | some (s0 :: _) =>
    match s0.pageElements with
    | some els =>
      match els.find? (fun el =>
          el.placeholderType == some "CENTERED_TITLE" || el.placeholderType == some "TITLE") with
      | some el => el.objectId
      | none => none
    | none => none
  | _ => none

/-- Number of batch-update round trips in a call trace. -/
def countBatchCalls (calls : List SlidesApiCall) : Nat :=
  calls.countP fun c =>
    match c with
    | SlidesApiCall.batchUpdateCall _ _ => true
    | _ => false

/-- `createPresentation` from `services/slides.ts`, returning the trace of
Slides API round trips it issues together with its result.  The create call
is always issued; a missing or empty (falsy) `presentationId` is fatal;
otherwise all assembled requests are submitted in a single batch update
(skipped when the request list is empty), and the deterministic URL and raw
id are returned. -/
def createPresentation (params : CreatePresentationParams) (env : SlidesEnv) :
    List SlidesApiCall × Except String CreatePresentationResult :=
  let templateConfig := getTemplateConfig params.template
  let createCall := SlidesApiCall.createPresentationCall params.structure_.title
  match env.createResponse.presentationId with
  | none => ([createCall], Except.error "Failed to create presentation")
  | some presentationId =>
    if presentationId = "" then
      ([createCall], Except.error "Failed to create presentation")
    else
      let titleSlideId := findTitleSlideId env.createResponse
      let titleShapeId := findTitleShapeId env.createResponse
      let requests := buildSlideRequests templateConfig params.structure_ titleSlideId titleShapeId
      let calls := [createCall] ++
        (if requests.isEmpty then [] else [SlidesApiCall.batchUpdateCall presentationId requests])
      match (if requests.isEmpty then Except.ok () else env.batchResult) with
      | Except.error e => (calls, Except.error e)
      | Except.ok _ =>
        (calls, Except.ok ⟨"https://docs.google.com/presentation/d/" ++ presentationId ++ "/edit", presentationId⟩)

/-! ## Prompt-segment splits (used to exhibit required substrings) -/

/-- Middle of `promptSeg2`, between "-slide presentation" and "exactly ". -/
def promptSeg2Mid : String :=
  " targeting tech company executives.\n\nREQUIREMENTS:\n1. Create "

/-- Tail of `promptSeg3` after " slides". -/
def promptSeg3Tail : String :=
  " (not including the title slide)\n2. Each slide must have:\n   - A clear, concise title (max 8 words)\n   - 3-5 bullet points (max 15 words each)\n3. Focus on:\n   - Key decisions and recommendations\n   - Quantifiable metrics, outcomes, and KPIs\n   - Strategic implications and business impact\n   - Action items and next steps\n4. Executives have limited time - every word must earn its place\n5. Lead with the most important information (inverted pyramid)\n6. Use active voice and strong verbs\n7. Avoid jargon unless industry-standard\n\n"

/-! # Theorems -/

/-! ## Generic list helpers -/

theorem joinAll_append (a b : List String) : joinAll (a ++ b) = joinAll a ++ joinAll b := by
  induction a with
  | nil => simp [joinAll, String.empty_append]
  | cons s rest ih => simp [joinAll, ih, String.append_assoc]

theorem foldl_append_contrib (els : List ParagraphElement) (acc : String) :
    els.foldl (fun t e => t ++ textRunContribution e) acc
      = acc ++ joinAll (els.map textRunContribution) := by
  induction els generalizing acc with
  | nil => simp [joinAll, String.append_empty]
  | cons e rest ih => simp [joinAll, ih, String.append_assoc]

theorem contentFoldStep_eq (acc : String) (el : DocsApiContent) :
    contentFoldStep acc el = acc ++ joinAll (contentItemFragments el) := by
  cases hp : el.paragraph with
  | none => simp [contentFoldStep, contentItemFragments, hp, joinAll, String.append_empty]
  | some paragraph =>
    cases he : paragraph.elements with
    | none => simp [contentFoldStep, contentItemFragments, hp, he, joinAll, String.append_empty]
    | some els => simp [contentFoldStep, contentItemFragments, hp, he, foldl_append_contrib]

theorem foldl_contentFoldStep (content : List DocsApiContent) (acc : String) :
    content.foldl contentFoldStep acc = acc ++ joinAll (content.flatMap contentItemFragments) := by
  induction content generalizing acc with
  | nil => simp [joinAll, String.append_empty]
  | cons el rest ih =>
    simp [List.foldl_cons, contentFoldStep_eq, ih, joinAll_append, String.append_assoc]

/-! ## Claim theorems -/

/-- Claim C7: `extractTextFromDocument` returns the concatenation, in
document order with no added separators, of all `textRun.content` fragments,
trimmed; missing `body`/`content`/`elements`/`textRun` fields contribute
nothing and never crash (the function is total); the two-paragraph document
with texts `"Line 1\n"` and `"Line 2"` yields `"Line 1\nLine 2"`, and a
document with no body yields `""`. -/
theorem extractTextFromDocument_spec :
    (∀ document : DocsApiResponse,
        extractTextFromDocument document = jsTrim (joinAll (specTextFragments document)))
      ∧ extractTextFromDocument twoParagraphsDoc = "Line 1\nLine 2"
      ∧ extractTextFromDocument ⟨some "No Body", none⟩ = "" := by
  refine ⟨fun document => ?_, by decide, by decide⟩
  show jsTrim (((document.body.bind DocsApiBody.content).getD []).foldl contentFoldStep "")
    = jsTrim (joinAll (specTextFragments document))
  unfold specTextFragments
  rw [foldl_contentFoldStep, String.empty_append]

/-- Claim C10: `createPresentation` never reads `userEmail`; two calls whose
parameters differ only in `userEmail` issue the same Slides API call trace
and return the same result. -/
theorem createPresentation_userEmail_irrelevant
    (structure_ : PresentationStructure) (accessToken userEmailA userEmailB : String)
    (template : Option SlideTemplate) (env : SlidesEnv) :
    createPresentation ⟨structure_, accessToken, userEmailA, template⟩ env =
      createPresentation ⟨structure_, accessToken, userEmailB, template⟩ env := rfl

theorem scanDocId_cons (c : Char) (cs : List Char) :
    scanDocId (c :: cs) =
      if docIdPattern.isPrefixOf (c :: cs) then
        (if ((List.drop docIdPattern.length (c :: cs)).takeWhile isIdChar).isEmpty then
          scanDocId cs
        else some ((List.drop docIdPattern.length (c :: cs)).takeWhile isIdChar))
      else scanDocId cs := rfl

theorem scanDocId_cons_of_ne (c : Char) (cs : List Char) (h : ¬ c = 'd') :
    scanDocId (c :: cs) = scanDocId cs := by
  rw [scanDocId_cons, if_neg]
  intro hpre
  rw [List.isPrefixOf_iff_prefix] at hpre
  have hd : docIdPattern = 'd' :: "ocs.google.com/document/d/".data := by decide
  rw [hd, List.cons_prefix_cons] at hpre
  exact h hpre.1.symm

theorem scanDocId_prepend (pre l : List Char) (h : ∀ c ∈ pre, ¬ c = 'd') :
    scanDocId (pre ++ l) = scanDocId l := by
  induction pre with
  | nil => rfl
  | cons c cs ih =>
    rw [List.cons_append, scanDocId_cons_of_ne _ _ (h c (by simp))]
    exact ih (fun x hx => h x (by simp [hx]))

theorem takeWhile_id_append (l₁ l₂ : List Char)
    (h1 : ∀ c ∈ l₁, isIdChar c = true)
    (h2 : ∀ c, l₂.head? = some c → isIdChar c = false) :
    (l₁ ++ l₂).takeWhile isIdChar = l₁ := by
  induction l₁ with
  | nil =>
    cases l₂ with
    | nil => rfl
    | cons c cs => simp [List.takeWhile_cons, h2 c rfl]
  | cons c cs ih =>
    simp only [List.cons_append, List.takeWhile_cons, h1 c (by simp), if_pos]
    rw [ih (fun x hx => h1 x (by simp [hx])) ]

theorem scanDocId_at_pattern (rest : List Char) (hne : rest.takeWhile isIdChar ≠ []) :
    scanDocId (docIdPattern ++ rest) = some (rest.takeWhile isIdChar) := by
  have hd : docIdPattern = 'd' :: "ocs.google.com/document/d/".data := by decide
  have h1 : docIdPattern ++ rest = 'd' :: ("ocs.google.com/document/d/".data ++ rest) := by
    rw [hd]; rfl
  rw [h1, scanDocId_cons, if_pos, if_neg]
  · have hdrop : List.drop docIdPattern.length ('d' :: ("ocs.google.com/document/d/".data ++ rest)) = rest := by
      rw [← List.cons_append, ← hd]
      exact List.drop_left docIdPattern rest
    rw [hdrop]
  · rw [List.isEmpty_iff]
    intro hcon
    have hdrop : List.drop docIdPattern.length ('d' :: ("ocs.google.com/document/d/".data ++ rest)) = rest := by
      rw [← List.cons_append, ← hd]
      exact List.drop_left docIdPattern rest
    rw [hdrop] at hcon
    exact hne hcon
  · rw [List.isPrefixOf_iff_prefix, ← h1]
    exact List.prefix_append docIdPattern rest

theorem scanDocId_none_of_no_match (l : List Char) (h : ¬ hasDocIdMatch l) :
    scanDocId l = none := by
  induction l with
  | nil => rfl
  | cons c cs ih =>
    have hcs : ¬ hasDocIdMatch cs := by
      intro ⟨s, t, d, heq, hd⟩
      exact h ⟨c :: s, t, d, by rw [heq, List.cons_append], hd⟩
    rw [scanDocId_cons]
    by_cases hp : docIdPattern.isPrefixOf (c :: cs) = true
    · rw [if_pos hp]
      obtain ⟨r, hr⟩ := List.isPrefixOf_iff_prefix.1 hp
      have hdrop : List.drop docIdPattern.length (c :: cs) = r := by
        rw [← hr]
        exact List.drop_left docIdPattern r
      rw [hdrop]
      cases hrc : r with
      | nil => simp [ih hcs]
      | cons d t =>
        by_cases hd : isIdChar d = true
        · exfalso
          exact h ⟨[], t, d, by rw [← hr, hrc]; rfl, hd⟩
        · rw [List.takeWhile_cons, if_neg hd]
          simp [ih hcs]
    · rw [if_neg hp]
      exact ih hcs

/-- Claim C4 counterexample: the regular expression is an unanchored
substring match, so a URL on an unrelated (non-Google) host that merely
embeds the pattern in its query string is accepted and yields its id,
instead of failing with `INVALID_URL`. -/
theorem extractDocumentId_unrelated_host_counterexample :
    extractDocumentId "https://evil.com/?u=docs.google.com/document/d/abc"
      = Except.ok "abc" := by rfl

/-- Claim C4 (amended): `extractDocumentId` returns the id for every URL of
the canonical form `https://docs.google.com/document/d/{id}` with `{id}`
drawn from alphanumerics, `-` and `_` and any suffix not starting with an
id character (covering `/edit`, `/view` and query strings); it fails with a
`DocsError` of kind `INVALID_URL` and HTTP-equivalent status 400 for
canonically written URLs of other Google Workspace products (spreadsheet,
presentation) and of unrelated hosts — precisely, for every URL in which
the literal pattern "docs.google.com/document/d/" immediately followed by
an id character occurs nowhere.  (Being an unanchored substring search, the
parser accepts any URL embedding that pattern anywhere, even on an
unrelated host; see the counterexample.) -/
theorem extractDocumentId_spec (idChars suffix : List Char)
    (hne : idChars ≠ [])
    (hid : ∀ c ∈ idChars, isIdChar c = true)
    (hsuffix : ∀ c, suffix.head? = some c → isIdChar c = false) :
    extractDocumentId (String.mk ("https://docs.google.com/document/d/".data ++ (idChars ++ suffix)))
        = Except.ok (String.mk idChars)
      ∧ extractDocumentId "https://docs.google.com/spreadsheets/d/1ABC123xyz_-/edit"
          = Except.error ⟨DocsErrorCode.INVALID_URL, "Invalid Google Docs URL format", 400⟩
      ∧ extractDocumentId "https://docs.google.com/presentation/d/1ABC123xyz_-/edit"
          = Except.error ⟨DocsErrorCode.INVALID_URL, "Invalid Google Docs URL format", 400⟩
      ∧ extractDocumentId "https://example.com/document/d/123"
          = Except.error ⟨DocsErrorCode.INVALID_URL, "Invalid Google Docs URL format", 400⟩
      ∧ (∀ url : String, ¬ hasDocIdMatch url.data →
          extractDocumentId url
            = Except.error ⟨DocsErrorCode.INVALID_URL, "Invalid Google Docs URL format", 400⟩) := by
  refine ⟨?_, by rfl, by rfl, by rfl, ?_⟩
  · have hsplit : "https://docs.google.com/document/d/".data = "https://".data ++ docIdPattern := by
      decide
    have htake : (idChars ++ suffix).takeWhile isIdChar = idChars :=
      takeWhile_id_append idChars suffix hid hsuffix
    have hscan : scanDocId ("https://docs.google.com/document/d/".data ++ (idChars ++ suffix))
        = some idChars := by
      rw [hsplit, List.append_assoc]
      rw [scanDocId_prepend _ _ (by decide)]
      rw [scanDocId_at_pattern _ (by rw [htake]; exact hne), htake]
    unfold extractDocumentId
    rw [show (String.mk ("https://docs.google.com/document/d/".data ++ (idChars ++ suffix))).data
        = "https://docs.google.com/document/d/".data ++ (idChars ++ suffix) from rfl]
    rw [hscan]
  · intro url h
    unfold extractDocumentId
    rw [scanDocId_none_of_no_match url.data h]

/-- Witness for the amended C4 theorem at the spec's own example URL. -/
theorem extractDocumentId_spec_witness :
    extractDocumentId (String.mk ("https://docs.google.com/document/d/".data
        ++ ("ABC123_-x".data ++ "/edit?usp=sharing".data)))
      = Except.ok (String.mk "ABC123_-x".data) :=
  (extractDocumentId_spec "ABC123_-x".data "/edit?usp=sharing".data
    (by decide) (by decide) (by decide)).1

/-! ## Fallback-chain helpers -/

theorem fetchGoogleDocsContent_dispatch_auth (url docId : String) (env : FetchEnv)
    (hurl : extractDocumentId url = Except.ok docId)
    (hprimary : env.primary.ok = false)
    (hstatus : env.primary.status = 403 ∨ env.primary.status = 401) :
    fetchGoogleDocsContent url env = fetchViaDriveExport env := by
  rcases hstatus with h | h <;>
    simp [fetchGoogleDocsContent, hurl, hprimary, h]

theorem fetchViaDriveExport_public (env : FetchEnv)
    (hfallback : env.metadata.ok = false ∨ env.driveExport.ok = false) :
    fetchViaDriveExport env = fetchViaPublicExport env.publicExport := by
  unfold fetchViaDriveExport
  rcases hfallback with h | h
  · rw [h]; simp
  · cases hm : env.metadata.ok with
    | false => simp
    | true => simp [h]

theorem fetchViaDriveExport_ok (env : FetchEnv)
    (hm : env.metadata.ok = true) (hd : env.driveExport.ok = true) :
    fetchViaDriveExport env
      = Except.ok ⟨orDefault env.metadata.body.name "Untitled Document", jsTrim env.driveExport.body⟩ := by
  simp [fetchViaDriveExport, hm, hd]

/-- Claim C1 counterexample: primary call 403, Drive metadata call 404 — the
fetch does not fail with `DOCUMENT_NOT_FOUND` using the metadata status;
the public-export tier runs instead and the fetch succeeds. -/
theorem fetchGoogleDocsContent_metadata404_counterexample :
    fetchGoogleDocsContent "https://docs.google.com/document/d/abc123/edit"
        ⟨⟨false, 403, "Forbidden", ⟨none, none⟩⟩,
         ⟨false, 404, "Not Found", ⟨none⟩⟩,
         ⟨false, 404, "Not Found", ""⟩,
         ⟨true, 200, "text/plain; charset=utf-8", "Hello"⟩⟩
      = Except.ok ⟨"Imported Document", "Hello"⟩ := by rfl

/-- Claim C1 (amended): when the primary document API responds 401 or 403,
the fetcher falls back to the Drive path: it fetches file metadata, and if
metadata and plain-text export both succeed it returns the metadata name
(default "Untitled Document") as title with the trimmed export text; when
the metadata call or the export call fails it does not fail with the
metadata call's status but falls back to the unauthenticated public-export
tier. -/
theorem fetchGoogleDocsContent_auth_fallback
    (url docId : String) (env : FetchEnv)
    (hurl : extractDocumentId url = Except.ok docId)
    (hprimary : env.primary.ok = false)
    (hstatus : env.primary.status = 403 ∨ env.primary.status = 401) :
    (env.metadata.ok = true → env.driveExport.ok = true →
        fetchGoogleDocsContent url env
          = Except.ok ⟨orDefault env.metadata.body.name "Untitled Document",
                       jsTrim env.driveExport.body⟩)
      ∧ ((env.metadata.ok = false ∨ env.driveExport.ok = false) →
        fetchGoogleDocsContent url env = fetchViaPublicExport env.publicExport) := by
  constructor
  · intro hm hd
    rw [fetchGoogleDocsContent_dispatch_auth url docId env hurl hprimary hstatus]
    exact fetchViaDriveExport_ok env hm hd
  · intro hfb
    rw [fetchGoogleDocsContent_dispatch_auth url docId env hurl hprimary hstatus]
    exact fetchViaDriveExport_public env hfb

/-- Witness for the amended C1 theorem: primary 403, metadata and export
succeed, yielding the metadata name and export text. -/
theorem fetchGoogleDocsContent_auth_fallback_witness :
    fetchGoogleDocsContent "https://docs.google.com/document/d/shared123/edit"
        ⟨⟨false, 403, "Forbidden", ⟨none, none⟩⟩,
         ⟨true, 200, "OK", ⟨some "Shared Document"⟩⟩,
         ⟨true, 200, "OK", "Content from Drive API"⟩,
         ⟨false, 404, "Not Found", ""⟩⟩
      = Except.ok ⟨"Shared Document", "Content from Drive API"⟩ := by
  have h := (fetchGoogleDocsContent_auth_fallback
    "https://docs.google.com/document/d/shared123/edit" "shared123"
    ⟨⟨false, 403, "Forbidden", ⟨none, none⟩⟩,
     ⟨true, 200, "OK", ⟨some "Shared Document"⟩⟩,
     ⟨true, 200, "OK", "Content from Drive API"⟩,
     ⟨false, 404, "Not Found", ""⟩⟩
    (by rfl) (by rfl) (Or.inl rfl)).1 rfl rfl
  rw [h]; rfl

/-- Claim C9: when the Drive metadata call or the Drive export call of the
fallback path fails, `fetchGoogleDocsContent` attempts the unauthenticated
public-export fetch; that tier returns title "Imported Document" with the
trimmed export body on success, fails with kind `DOCUMENT_NOT_FOUND` on
HTTP 404, and fails with kind `ACCESS_DENIED` (status 403) whenever the
response is otherwise non-OK, has a text/html content type, or has an empty
or whitespace-only body. -/
theorem fetchGoogleDocsContent_public_export_tier
    (url docId : String) (env : FetchEnv)
    (hurl : extractDocumentId url = Except.ok docId)
    (hprimary : env.primary.ok = false)
    (hstatus : env.primary.status = 403 ∨ env.primary.status = 401)
    (hfallback : env.metadata.ok = false ∨ env.driveExport.ok = false) :
    fetchGoogleDocsContent url env = fetchViaPublicExport env.publicExport
      ∧ (env.publicExport.ok = true →
          containsSubstring env.publicExport.contentType "text/html" = false →
          jsTrim env.publicExport.body ≠ "" →
          fetchViaPublicExport env.publicExport
            = Except.ok ⟨"Imported Document", jsTrim env.publicExport.body⟩)
      ∧ (env.publicExport.ok = false → env.publicExport.status = 404 →
          fetchViaPublicExport env.publicExport
            = Except.error ⟨DocsErrorCode.DOCUMENT_NOT_FOUND, "Document not found", 400⟩)
      ∧ (env.publicExport.ok = false → env.publicExport.status ≠ 404 →
          ∃ e, fetchViaPublicExport env.publicExport = Except.error e
            ∧ e.code = DocsErrorCode.ACCESS_DENIED ∧ e.httpStatus = 403)
      ∧ (env.publicExport.ok = true →
          containsSubstring env.publicExport.contentType "text/html" = true →
          ∃ e, fetchViaPublicExport env.publicExport = Except.error e
            ∧ e.code = DocsErrorCode.ACCESS_DENIED ∧ e.httpStatus = 403)
      ∧ (env.publicExport.ok = true →
          containsSubstring env.publicExport.contentType "text/html" = false →
          jsTrim env.publicExport.body = "" →
          ∃ e, fetchViaPublicExport env.publicExport = Except.error e
            ∧ e.code = DocsErrorCode.ACCESS_DENIED ∧ e.httpStatus = 403) := by
  refine ⟨?_, ?_, ?_, ?_, ?_, ?_⟩
  · rw [fetchGoogleDocsContent_dispatch_auth url docId env hurl hprimary hstatus]
    exact fetchViaDriveExport_public env hfallback
  · intro hok hct htrim
    have hbody : env.publicExport.body ≠ "" := fun hb => htrim (by rw [hb]; rfl)
    simp [fetchViaPublicExport, hok, hct, hbody, htrim]
  · intro hok h404
    simp [fetchViaPublicExport, hok, h404]
  · intro hok h404
    refine ⟨⟨DocsErrorCode.ACCESS_DENIED, accessDeniedShareMsg, 403⟩, ?_, rfl, rfl⟩
    simp [fetchViaPublicExport, hok, h404]
  · intro hok hct
    refine ⟨⟨DocsErrorCode.ACCESS_DENIED, accessDeniedShareMsg, 403⟩, ?_, rfl, rfl⟩
    simp [fetchViaPublicExport, hok, hct]
  · intro hok hct htrim
    refine ⟨⟨DocsErrorCode.ACCESS_DENIED,
      "Could not retrieve document content. Please ensure the document is shared as 'Anyone with the link'.", 403⟩, ?_, rfl, rfl⟩
    simp [fetchViaPublicExport, hok, hct, htrim]

/-- Witness for the C9 theorem: primary 403, metadata fails, public export
succeeds with a plain-text body. -/
theorem fetchGoogleDocsContent_public_export_tier_witness :
    fetchGoogleDocsContent "https://docs.google.com/document/d/pub42/edit"
        ⟨⟨false, 403, "Forbidden", ⟨none, none⟩⟩,
         ⟨false, 403, "Forbidden", ⟨none⟩⟩,
         ⟨false, 403, "Forbidden", ""⟩,
         ⟨true, 200, "text/plain; charset=utf-8", " Public body \n"⟩⟩
      = Except.ok ⟨"Imported Document", "Public body"⟩ := by
  have h := fetchGoogleDocsContent_public_export_tier
    "https://docs.google.com/document/d/pub42/edit" "pub42"
    ⟨⟨false, 403, "Forbidden", ⟨none, none⟩⟩,
     ⟨false, 403, "Forbidden", ⟨none⟩⟩,
     ⟨false, 403, "Forbidden", ""⟩,
     ⟨true, 200, "text/plain; charset=utf-8", " Public body \n"⟩⟩
    (by rfl) (by rfl) (Or.inl rfl) (Or.inl rfl)
  rw [h.1, h.2.1 rfl (by rfl) (by decide)]; rfl

/-! ## Summarizer validation helpers -/

theorem validateSlide_ok (index : Nat) (v : JVal) (m : ModelSlide)
    (h : validateSlide index v = Except.ok m) :
    ∃ bs, jget v "bullets" = some (JVal.jarr bs) ∧ m.bullets = filterBullets bs := by
  unfold validateSlide at h
  cases ht : jget v "title" with
  | none => rw [ht] at h; cases h
  | some t =>
    rw [ht] at h
    dsimp only at h
    by_cases htr : jtruthy t = true
    · rw [if_pos htr] at h
      cases hb : jget v "bullets" with
      | none => rw [hb] at h; cases h
      | some bv =>
        rw [hb] at h
        cases bv with
        | jarr bs => cases h; exact ⟨bs, rfl, rfl⟩
        | jnull => cases h
        | jbool b => cases h
        | jnum n => cases h
        | jstr s => cases h
        | jobj fields => cases h
    · rw [if_neg htr] at h; cases h

theorem validateSlides_length (index : Nat) (vs : List JVal) (ms : List ModelSlide)
    (h : validateSlides index vs = Except.ok ms) : ms.length = vs.length := by
  induction vs generalizing index ms with
  | nil => cases h; rfl
  | cons v0 rest ih =>
    unfold validateSlides at h
    cases h0 : validateSlide index v0 with
    | error e => rw [h0] at h; cases h
    | ok m =>
      rw [h0] at h
      cases hr : validateSlides (index + 1) rest with
      | error e => rw [hr] at h; cases h
      | ok ms' =>
        rw [hr] at h
        cases h
        simp [ih (index + 1) ms' hr]

theorem validateSlides_get (index : Nat) (vs : List JVal) (ms : List ModelSlide)
    (h : validateSlides index vs = Except.ok ms) :
    ∀ k v, vs.get? k = some v →
      ∃ bs, jget v "bullets" = some (JVal.jarr bs)
        ∧ (ms.get? k).map ModelSlide.bullets = some (filterBullets bs) := by
  induction vs generalizing index ms with
  | nil => intro k v hv; simp at hv
  | cons v0 rest ih =>
    intro k v hv
    unfold validateSlides at h
    cases h0 : validateSlide index v0 with
    | error e => rw [h0] at h; cases h
    | ok m =>
      rw [h0] at h
      cases hr : validateSlides (index + 1) rest with
      | error e => rw [hr] at h; cases h
      | ok ms' =>
        rw [hr] at h
        cases h
        cases k with
        | zero =>
          simp only [List.get?_cons_zero, Option.some.injEq] at hv
          subst hv
          obtain ⟨bs, hbs, hmb⟩ := validateSlide_ok index v0 m h0
          exact ⟨bs, hbs, by simp [hmb]⟩
        | succ k' =>
          simp only [List.get?_cons_succ] at hv ⊢
          exact ih (index + 1) ms' hr k' v hv

theorem validateSlides_mem (index : Nat) (vs : List JVal) (ms : List ModelSlide)
    (h : validateSlides index vs = Except.ok ms) :
    ∀ m ∈ ms, ∃ bs, m.bullets = filterBullets bs := by
  induction vs generalizing index ms with
  | nil => cases h; intro m hm; simp at hm
  | cons v0 rest ih =>
    unfold validateSlides at h
    cases h0 : validateSlide index v0 with
    | error e => rw [h0] at h; cases h
    | ok m0 =>
      rw [h0] at h
      cases hr : validateSlides (index + 1) rest with
      | error e => rw [hr] at h; cases h
      | ok ms' =>
        rw [hr] at h
        cases h
        intro m hm
        rcases List.mem_cons.1 hm with hm0 | hmrest
        · subst hm0
          obtain ⟨bs, _, hmb⟩ := validateSlide_ok index v0 m h0
          exact ⟨bs, hmb⟩
        · exact ih (index + 1) ms' hr m hmrest

theorem mem_filterBullets (bs : List JVal) (b : String) (h : b ∈ filterBullets bs) :
    jsTrim b ≠ "" := by
  unfold filterBullets at h
  rw [List.mem_filterMap] at h
  obtain ⟨v, _, hf⟩ := h
  cases v with
  | jstr s =>
    dsimp only at hf
    by_cases hs : jsTrim s = ""
    · rw [if_pos hs] at hf; cases hf
    · rw [if_neg hs] at hf
      cases hf
      exact hs
  | jnull => cases hf
  | jbool x => cases hf
  | jnum x => cases hf
  | jarr x => cases hf
  | jobj x => cases hf

theorem generateMockSlides_bullets_trim (title : String) (slideCount : Nat) :
    ∀ s ∈ (generateMockSlides title slideCount).slides, ∀ b ∈ s.bullets, jsTrim b ≠ "" := by
  intro s hs b hb
  simp only [generateMockSlides, List.mem_map, List.mem_range] at hs
  obtain ⟨i, _, hi⟩ := hs
  subst hi
  simp only at hb
  have h5 : i % sampleBullets.length < sampleBullets.length :=
    Nat.mod_lt _ (by decide)
  rw [List.getD_eq_getElem sampleBullets [] h5] at hb
  have hmem := List.getElem_mem h5
  have hall : ∀ bl ∈ sampleBullets, ∀ x ∈ bl, jsTrim x ≠ "" := by decide
  exact hall _ hmem b hb

/-- Claim C2 counterexample: a model bullet `" a "` has a non-empty trim, so
it is retained — but verbatim, not trimmed; the returned bullet is not a
trimmed string. -/
theorem summarizeDocument_untrimmed_bullet_counterexample :
    summarizeDocument (some "key")
        ⟨"resp", fun s => if s = "resp" then
            some (JVal.jobj [("slides", JVal.jarr
              [JVal.jobj [("title", JVal.jstr "T"), ("bullets", JVal.jarr [JVal.jstr " a "])]])])
          else none⟩
        "content" "Doc" 5 none
      = Except.ok ⟨"Doc", [⟨JVal.jstr "T", [" a "]⟩]⟩
    ∧ jsTrim " a " ≠ " a " := by
  exact ⟨rfl, by decide⟩

/-- Claim C2 (amended): every successful `summarizeDocument` call returns
the caller-supplied title (never the model's); each returned slide's bullets
are the model's bullets filtered to retain exactly the string entries whose
trimmed form is non-empty, kept verbatim (not trimmed); in particular every
retained bullet has a non-empty trim, and the model bullets
`["a", "", "  ", "b"]` yield `["a", "b"]`. -/
theorem summarizeDocument_bullets_filtered
    (apiKey : Option String) (env : GeminiEnv) (content title : String)
    (slideCount : Nat) (customPrompt : Option String) (p : ModelPresentation)
    (hok : summarizeDocument apiKey env content title slideCount customPrompt = Except.ok p) :
    p.title = title
      ∧ (∀ s ∈ p.slides, ∀ b ∈ s.bullets, jsTrim b ≠ "")
      ∧ (∀ parsed slidesArr,
          shouldUseMock apiKey = false →
          env.parseJson (cleanModelText env.responseText) = some parsed →
          jget parsed "slides" = some (JVal.jarr slidesArr) →
          p.slides.length = slidesArr.length
            ∧ ∀ k v, slidesArr.get? k = some v →
                ∃ bs, jget v "bullets" = some (JVal.jarr bs)
                  ∧ (p.slides.get? k).map ModelSlide.bullets = some (filterBullets bs))
      ∧ filterBullets [JVal.jstr "a", JVal.jstr "", JVal.jstr "  ", JVal.jstr "b"] = ["a", "b"] := by
  unfold summarizeDocument at hok
  cases hmock : shouldUseMock apiKey with
  | true =>
    rw [hmock, if_pos rfl] at hok
    cases hok
    refine ⟨rfl, generateMockSlides_bullets_trim title slideCount, ?_, by decide⟩
    intro parsed slidesArr hfalse
    simp at hfalse
  | false =>
    rw [hmock, if_neg (show ¬(false = true) by decide)] at hok
    dsimp only at hok
    by_cases htext : env.responseText = ""
    · rw [if_pos htext] at hok; cases hok
    · rw [if_neg htext] at hok
      cases hp : env.parseJson (cleanModelText env.responseText) with
      | none => rw [hp] at hok; cases hok
      | some parsed0 =>
        rw [hp] at hok
        dsimp only at hok
        cases hj : jget parsed0 "slides" with
        | none => rw [hj] at hok; cases hok
        | some sv =>
          rw [hj] at hok
          cases sv with
          | jarr slidesArr0 =>
            dsimp only at hok
            cases hv : validateSlides 0 slidesArr0 with
            | error e => rw [hv] at hok; cases hok
            | ok slides0 =>
              rw [hv] at hok
              cases hok
              refine ⟨rfl, ?_, ?_, by decide⟩
              · intro s hs b hb
                obtain ⟨bs, hbs⟩ := validateSlides_mem 0 slidesArr0 slides0 hv s hs
                exact mem_filterBullets bs b (hbs ▸ hb)
              · intro parsed slidesArr _ hp' hj'
                cases hp'
                rw [hj] at hj'
                cases hj'
                exact ⟨validateSlides_length 0 slidesArr0 slides0 hv,
                       validateSlides_get 0 slidesArr0 slides0 hv⟩
          | jnull => cases hok
          | jbool b => cases hok
          | jnum n => cases hok
          | jstr s => cases hok
          | jobj fields => cases hok

/-- Witness for the amended C2 theorem, at the spec's own example: bullets
`["a", "", "  ", "b"]` yield `["a", "b"]` and the input title is kept. -/
theorem summarizeDocument_bullets_filtered_witness :
    (⟨"Doc", [⟨JVal.jstr "T", ["a", "b"]⟩]⟩ : ModelPresentation).title = "Doc"
      ∧ filterBullets [JVal.jstr "a", JVal.jstr "", JVal.jstr "  ", JVal.jstr "b"] = ["a", "b"] := by
  have h := summarizeDocument_bullets_filtered (some "key")
    ⟨"resp", fun s => if s = "resp" then
        some (JVal.jobj [("slides", JVal.jarr
          [JVal.jobj [("title", JVal.jstr "T"),
                      ("bullets", JVal.jarr [JVal.jstr "a", JVal.jstr "", JVal.jstr "  ", JVal.jstr "b"])]])])
      else none⟩
    "content" "Doc" 1 none ⟨"Doc", [⟨JVal.jstr "T", ["a", "b"]⟩]⟩ rfl
  exact ⟨h.1, h.2.2.2⟩

/-- Claim C3 counterexample: in real (non-mock) mode the requested
`slideCount` is not enforced — a model response with a single slide is
accepted for `slideCount = 5`. -/
theorem summarizeDocument_count_counterexample :
    summarizeDocument (some "key")
        ⟨"resp", fun s => if s = "resp" then
            some (JVal.jobj [("slides", JVal.jarr
              [JVal.jobj [("title", JVal.jstr "T"), ("bullets", JVal.jarr [])]])])
          else none⟩
        "content" "Doc" 5 none
      = Except.ok ⟨"Doc", [⟨JVal.jstr "T", []⟩]⟩
    ∧ ([⟨JVal.jstr "T", ([] : List String)⟩] : List ModelSlide).length ≠ 5 := by
  exact ⟨rfl, by decide⟩

/-- Claim C3 (amended): the slides-length invariant holds in mock mode: for
every requested `slideCount`, mock summarization succeeds with exactly
`slideCount` slides; in particular a valid paste-mode preview request with
`slideCount = 5` in mock mode returns success with exactly 5 slides.  (Real
mode performs no count check, see the counterexample.) -/
theorem summarizeDocument_mock_slide_count
    (apiKey : Option String) (env : GeminiEnv) (content title : String)
    (slideCount : Nat) (customPrompt : Option String)
    (hmock : shouldUseMock apiKey = true) :
    summarizeDocument apiKey env content title slideCount customPrompt
        = Except.ok (generateMockSlides title slideCount)
      ∧ (generateMockSlides title slideCount).slides.length = slideCount
      ∧ (∃ p, previewHandler none ⟨"", fun _ => none⟩
            ⟨some "Quarterly results and projections", some "My Doc", some 5, none⟩
            = PreviewResult.success p ∧ p.slides.length = 5) := by
  refine ⟨?_, ?_, ⟨generateMockSlides "My Doc" 5, rfl, rfl⟩⟩
  · unfold summarizeDocument
    rw [hmock, if_pos rfl]
  · simp [generateMockSlides]

/-- Witness for the C3 theorem: mock mode with `slideCount = 7` returns
exactly 7 canned slides. -/
theorem summarizeDocument_mock_slide_count_witness :
    summarizeDocument none ⟨"", fun _ => none⟩ "content" "T" 7 none
        = Except.ok (generateMockSlides "T" 7)
      ∧ (generateMockSlides "T" 7).slides.length = 7 := by
  have h := summarizeDocument_mock_slide_count none ⟨"", fun _ => none⟩ "content" "T" 7 none rfl
  exact ⟨h.1, h.2.1⟩

/-- Claim C8: `createPresentation` fails fatally with the
"Failed to create presentation" message whenever the create call yields no
(truthy) presentation id, having issued only the create call; otherwise at
most one batch update is ever issued, any issued batch update carries the
fully assembled request list for the returned presentation id (so partial
application is never attempted: when requests exist the trace is exactly
create-then-one-batch), and on batch success the result is
`https://docs.google.com/presentation/d/<id>/edit` with the raw id. -/
theorem createPresentation_spec (params : CreatePresentationParams) (env : SlidesEnv) :
    ((env.createResponse.presentationId = none ∨ env.createResponse.presentationId = some "") →
        createPresentation params env
          = ([SlidesApiCall.createPresentationCall params.structure_.title],
             Except.error "Failed to create presentation"))
      ∧ countBatchCalls (createPresentation params env).1 ≤ 1
      ∧ (∀ pid, env.createResponse.presentationId = some pid → pid ≠ "" →
          ∀ requests, requests = buildSlideRequests (getTemplateConfig params.template)
              params.structure_ (findTitleSlideId env.createResponse) (findTitleShapeId env.createResponse) →
            (∀ pid' reqs',
                SlidesApiCall.batchUpdateCall pid' reqs' ∈ (createPresentation params env).1 →
                pid' = pid ∧ reqs' = requests)
              ∧ (requests ≠ [] →
                  (createPresentation params env).1
                    = [SlidesApiCall.createPresentationCall params.structure_.title,
                       SlidesApiCall.batchUpdateCall pid requests])
              ∧ (env.batchResult = Except.ok () →
                  (createPresentation params env).2
                    = Except.ok ⟨"https://docs.google.com/presentation/d/" ++ pid ++ "/edit", pid⟩)) := by
  cases hpid : env.createResponse.presentationId with
  | none =>
    refine ⟨fun _ => by simp [createPresentation, hpid], ?_, ?_⟩
    · simp [createPresentation, hpid, countBatchCalls]
    · intro pid hc
      cases hc
  | some pid0 =>
    by_cases h0 : pid0 = ""
    · subst h0
      refine ⟨fun _ => by simp [createPresentation, hpid], ?_, ?_⟩
      · simp [createPresentation, hpid, countBatchCalls]
      · intro pid hc hne
        cases hc
        exact absurd rfl hne
    · have hbody : createPresentation params env =
          (let requests := buildSlideRequests (getTemplateConfig params.template)
              params.structure_ (findTitleSlideId env.createResponse) (findTitleShapeId env.createResponse)
           let calls := [SlidesApiCall.createPresentationCall params.structure_.title] ++
              (if requests.isEmpty then [] else [SlidesApiCall.batchUpdateCall pid0 requests])
           match (if requests.isEmpty then Except.ok () else env.batchResult) with
           | Except.error e => (calls, Except.error e)
           | Except.ok _ =>
             (calls, Except.ok ⟨"https://docs.google.com/presentation/d/" ++ pid0 ++ "/edit", pid0⟩)) := by
        simp [createPresentation, hpid, h0]
      have hfst : (createPresentation params env).1
          = [SlidesApiCall.createPresentationCall params.structure_.title] ++
              (if (buildSlideRequests (getTemplateConfig params.template)
                  params.structure_ (findTitleSlideId env.createResponse)
                  (findTitleShapeId env.createResponse)).isEmpty then []
               else [SlidesApiCall.batchUpdateCall pid0
                  (buildSlideRequests (getTemplateConfig params.template)
                    params.structure_ (findTitleSlideId env.createResponse)
                    (findTitleShapeId env.createResponse))]) := by
        rw [hbody]
        dsimp only
        cases hscrut : (if (buildSlideRequests (getTemplateConfig params.template)
            params.structure_ (findTitleSlideId env.createResponse)
            (findTitleShapeId env.createResponse)).isEmpty then (Except.ok () : Except String Unit)
          else env.batchResult) with
        | error e => rfl
        | ok u => rfl
      refine ⟨?_, ?_, ?_⟩
      · intro hc
        rcases hc with hc | hc
        · cases hc
        · cases hc
          exact absurd rfl h0
      · rw [hfst]
        cases hreq : (buildSlideRequests (getTemplateConfig params.template)
            params.structure_ (findTitleSlideId env.createResponse)
            (findTitleShapeId env.createResponse)).isEmpty with
        | true => simp [countBatchCalls]
        | false => simp [countBatchCalls]
      · intro pid hc hne requests hreq
        cases hc
        refine ⟨?_, ?_, ?_⟩
        · intro pid' reqs' hmem
          rw [hfst, ← hreq] at hmem
          cases hempty : requests.isEmpty with
          | true => rw [hempty] at hmem; simp at hmem
          | false =>
            rw [hempty] at hmem
            simp at hmem
            exact ⟨hmem.1, hmem.2⟩
        · intro hner
          have hempty : requests.isEmpty = false := by
            cases hx : requests.isEmpty with
            | true => exact absurd (List.isEmpty_iff.1 hx) hner
            | false => rfl
          rw [hfst, ← hreq, hempty]
          simp
        · intro hb
          rw [hbody]
          dsimp only
          rw [← hreq, hb]
          cases hempty : requests.isEmpty with
          | true => rfl
          | false => rfl

/-- Witness for the C8 theorem: a one-slide presentation on the modern
template, with a successful batch, yields the deterministic URL and id. -/
theorem createPresentation_spec_witness :
    countBatchCalls (createPresentation
        ⟨⟨"Deck", [⟨"S1", ["b1", "b2"]⟩]⟩, "tok", "user@example.com", none⟩
        ⟨⟨some "p123", some [⟨some "titleSlide", some [⟨some "shape1", some "CENTERED_TITLE"⟩]⟩]⟩,
         Except.ok ()⟩).1 ≤ 1
      ∧ (createPresentation
          ⟨⟨"Deck", [⟨"S1", ["b1", "b2"]⟩]⟩, "tok", "user@example.com", none⟩
          ⟨⟨some "p123", some [⟨some "titleSlide", some [⟨some "shape1", some "CENTERED_TITLE"⟩]⟩]⟩,
           Except.ok ()⟩).2
        = Except.ok ⟨"https://docs.google.com/presentation/d/p123/edit", "p123"⟩ := by
  have h := createPresentation_spec
    ⟨⟨"Deck", [⟨"S1", ["b1", "b2"]⟩]⟩, "tok", "user@example.com", none⟩
    ⟨⟨some "p123", some [⟨some "titleSlide", some [⟨some "shape1", some "CENTERED_TITLE"⟩]⟩]⟩,
     Except.ok ()⟩
  refine ⟨h.2.1, ?_⟩
  have h3 := (h.2.2 "p123" rfl (by decide) _ rfl).2.2 rfl
  rw [h3]
  rfl

/-! ## Prefix/suffix/trim helpers -/

theorem prefixHead {α : Type} {l₁ l₂ : List α} (h : l₁ <+: l₂) (hne : l₁ ≠ []) :
    l₂.head? = l₁.head? := by
  obtain ⟨t, ht⟩ := h
  subst ht
  cases l₁ with
  | nil => exact absurd rfl hne
  | cons a as => rfl

theorem suffixLast {α : Type} {l₁ l₂ : List α} (h : l₁ <:+ l₂) (hne : l₁ ≠ []) :
    l₂.getLast? = l₁.getLast? := by
  obtain ⟨s, hs⟩ := h
  subst hs
  rw [List.getLast?_append]
  cases hl : l₁.getLast? with
  | none => exact absurd (List.getLast?_eq_none_iff.1 hl) hne
  | some a => rfl

theorem dropWhileHead {α : Type} (p : α → Bool) (l : List α) :
    ∀ c, (l.dropWhile p).head? = some c → p c = false := by
  induction l with
  | nil => intro c hc; cases hc
  | cons a as ih =>
    intro c hc
    rw [List.dropWhile_cons] at hc
    by_cases hp : p a = true
    · rw [if_pos hp] at hc
      exact ih c hc
    · rw [if_neg hp] at hc
      cases hc
      exact Bool.eq_false_iff.2 hp

theorem dropWhile_of_headNot {α : Type} (p : α → Bool) (l : List α)
    (h : ∀ c, l.head? = some c → p c = false) : l.dropWhile p = l := by
  cases l with
  | nil => rfl
  | cons a as =>
    rw [List.dropWhile_cons, if_neg]
    rw [h a rfl]
    simp

theorem jsTrimBoth_idem (l : List Char) : jsTrimBoth (jsTrimBoth l) = jsTrimBoth l := by
  unfold jsTrimBoth
  have h1 : ((((l.dropWhile Char.isWhitespace).reverse.dropWhile
      Char.isWhitespace).reverse).dropWhile Char.isWhitespace)
      = ((l.dropWhile Char.isWhitespace).reverse.dropWhile Char.isWhitespace).reverse := by
    apply dropWhile_of_headNot
    intro c hc
    rw [List.head?_reverse] at hc
    have hrne : (l.dropWhile Char.isWhitespace).reverse.dropWhile Char.isWhitespace ≠ [] := by
      intro h0
      rw [h0] at hc
      cases hc
    have hsuff : (l.dropWhile Char.isWhitespace).reverse.dropWhile Char.isWhitespace
        <:+ (l.dropWhile Char.isWhitespace).reverse :=
      List.dropWhile_suffix _
    have hrev : (l.dropWhile Char.isWhitespace).reverse.getLast? = some c := by
      rw [suffixLast hsuff hrne]; exact hc
    rw [List.getLast?_reverse] at hrev
    exact dropWhileHead Char.isWhitespace l c hrev
  rw [h1, List.reverse_reverse]
  have h2 : ((l.dropWhile Char.isWhitespace).reverse.dropWhile Char.isWhitespace).dropWhile
      Char.isWhitespace = (l.dropWhile Char.isWhitespace).reverse.dropWhile Char.isWhitespace :=
    dropWhile_of_headNot _ _ (dropWhileHead Char.isWhitespace _)
  rw [h2]

theorem jsTrimBoth_of_ends (l : List Char)
    (hh : ∀ c, l.head? = some c → Char.isWhitespace c = false)
    (hl : ∀ c, l.getLast? = some c → Char.isWhitespace c = false) :
    jsTrimBoth l = l := by
  unfold jsTrimBoth
  rw [dropWhile_of_headNot _ _ hh]
  rw [dropWhile_of_headNot _ _ (fun c hc => hl c (by rwa [List.head?_reverse] at hc))]
  rw [List.reverse_reverse]

/-! ## Infix decomposition helpers -/

theorem infix_of_eq_append {H l A B : List Char} (he : l = A ++ (H ++ B)) : H <:+: l := by
  rw [he]
  have := List.infix_append A H B
  rwa [List.append_assoc] at this

theorem infix_append_split {α : Type} {H a b : List α} (h : H <:+: a ++ b) :
    H <:+: a ∨ H <:+: b ∨
      ∃ k, 0 < k ∧ k < H.length ∧ H.take k <:+ a ∧ H.drop k <+: b := by
  obtain ⟨s, t, hst⟩ := h
  rw [List.append_assoc] at hst
  rcases List.append_eq_append_iff.1 hst with ⟨a', ha, hb⟩ | ⟨c', hc, hd⟩
  · -- a = s ++ a' and H ++ t = a' ++ b
    rcases List.append_eq_append_iff.1 hb with ⟨w, hw1, hw2⟩ | ⟨z, hz1, hz2⟩
    · -- a' = H ++ w and t = w ++ b : H is inside a
      left
      exact ⟨s, w, by rw [ha, hw1, List.append_assoc]⟩
    · -- H = a' ++ z and b = z ++ t
      cases haz : a' with
      | nil =>
        right; left
        rw [haz] at hz1
        simp at hz1
        exact ⟨[], t, by rw [hz2, ← hz1]; rfl⟩
      | cons x xs =>
        cases hz : z with
        | nil =>
          left
          rw [hz] at hz1
          simp at hz1
          exact ⟨s, [], by rw [ha, ← hz1, List.append_nil]⟩
        | cons y ys =>
          right; right
          refine ⟨a'.length, ?_, ?_, ?_, ?_⟩
          · rw [haz]; simp
          · rw [hz1, List.length_append, hz]
            simp
          · have : H.take a'.length = a' := by
              rw [hz1, List.take_left]
            rw [this, ha]
            exact ⟨s, rfl⟩
          · have : H.drop a'.length = z := by
              rw [hz1, List.drop_left]
            rw [this, hz2]
            exact ⟨t, rfl⟩
  · -- s = a ++ c' and b = c' ++ (H ++ t)
    right; left
    exact ⟨c', t, by rw [hd, List.append_assoc]⟩

theorem notInfixAppend {H a b : List Char} (ha : ¬ H <:+: a) (hb : ¬ H <:+: b)
    (hstraddle : ∀ k, 0 < k → k < H.length → ¬ (H.take k <:+ a ∧ H.drop k <+: b)) :
    ¬ H <:+: a ++ b := by
  intro h
  rcases infix_append_split h with h1 | h2 | ⟨k, hk0, hkl, hsuf, hpre⟩
  · exact ha h1
  · exact hb h2
  · exact hstraddle k hk0 hkl ⟨hsuf, hpre⟩

/-! ## Fence-cleanup helpers -/

theorem isPrefixOf_false_headNe (p x : List Char) (c : Char)
    (hp : p.head? = some c) (hx : ∀ d, x.head? = some d → d ≠ c) :
    p.isPrefixOf x = false := by
  cases hb : p.isPrefixOf x with
  | false => rfl
  | true =>
    exfalso
    rw [List.isPrefixOf_iff_prefix] at hb
    have hpne : p ≠ [] := by intro h0; rw [h0] at hp; cases hp
    have hhd := prefixHead hb hpne
    cases hx0 : x.head? with
    | none => rw [hx0, hp] at hhd; cases hhd
    | some d =>
      refine hx d hx0 ?_
      rw [hx0, hp] at hhd
      cases hhd
      rfl

theorem isSuffixOf_false_lastNe (p x : List Char) (c : Char)
    (hp : p.getLast? = some c) (hx : ∀ d, x.getLast? = some d → d ≠ c) :
    p.isSuffixOf x = false := by
  cases hb : p.isSuffixOf x with
  | false => rfl
  | true =>
    exfalso
    rw [List.isSuffixOf_iff_suffix] at hb
    have hpne : p ≠ [] := by intro h0; rw [h0] at hp; cases hp
    have hlst := suffixLast hb hpne
    cases hx0 : x.getLast? with
    | none => rw [hx0, hp] at hlst; cases hlst
    | some d =>
      refine hx d hx0 ?_
      rw [hx0, hp] at hlst
      cases hlst
      rfl

theorem getLast?_append_fence3 (x : List Char) : (x ++ fence3).getLast? = some backtickChar := by
  rw [List.getLast?_append]
  rw [show fence3.getLast? = some backtickChar from by decide]
  rfl

theorem take_sub_three (l : List Char) :
    (l ++ fence3).take ((l ++ fence3).length - 3) = l := by
  rw [List.length_append]
  rw [show fence3.length = 3 from by decide]
  rw [Nat.add_sub_cancel]
  exact List.take_left l fence3

/-- Core of the fence-stripping invariance (C6): on the character-list view,
wrapping a non-fence payload in a leading `` ```json `` or `` ``` `` fence
and a trailing `` ``` `` fence cleans to the same string as the unwrapped
payload. -/
theorem cleanModelData_eq (l : List Char)
    (hne : l ≠ [])
    (hhead : ∀ c, l.head? = some c → c ≠ backtickChar ∧ c ≠ 'j')
    (hth : ∀ c, (jsTrimBoth l).head? = some c → c ≠ backtickChar)
    (htl : ∀ c, (jsTrimBoth l).getLast? = some c → c ≠ backtickChar) :
    cleanModelData (fence7 ++ (l ++ fence3)) = jsTrimBoth l
    ∧ cleanModelData (fence3 ++ (l ++ fence3)) = jsTrimBoth l
    ∧ cleanModelData l = jsTrimBoth l := by
  have hws : Char.isWhitespace backtickChar = false := by decide
  have hpre3 : fence3.isPrefixOf (l ++ fence3) = false := by
    refine isPrefixOf_false_headNe fence3 (l ++ fence3) backtickChar (by decide) ?_
    intro d hd
    rw [List.head?_append_of_ne_nil l hne] at hd
    exact (hhead d hd).1
  have hsuf3 : fence3.isSuffixOf (l ++ fence3) = true :=
    List.isSuffixOf_iff_suffix.2 (List.suffix_append l fence3)
  refine ⟨?_, ?_, ?_⟩
  · have htrim : jsTrimBoth (fence7 ++ (l ++ fence3)) = fence7 ++ (l ++ fence3) := by
      apply jsTrimBoth_of_ends
      · intro c hc
        rw [show fence7 = backtickChar :: "``json".data from by decide] at hc
        cases hc
        exact hws
      · intro c hc
        rw [List.getLast?_append, getLast?_append_fence3 l] at hc
        cases hc
        exact hws
    have hp7 : fence7.isPrefixOf (fence7 ++ (l ++ fence3)) = true :=
      List.isPrefixOf_iff_prefix.2 (List.prefix_append fence7 (l ++ fence3))
    have hdrop : List.drop 7 (fence7 ++ (l ++ fence3)) = l ++ fence3 := by
      rw [show (7 : Nat) = fence7.length from by decide]
      exact List.drop_left fence7 (l ++ fence3)
    have htake : List.take (l.length + fence3.length - 3) (l ++ fence3) = l := by
      rw [show fence3.length = 3 from by decide, Nat.add_sub_cancel]
      exact List.take_left l fence3
    simp [cleanModelData, htrim, hp7, hdrop, hpre3, hsuf3, htake]
  · have htrim : jsTrimBoth (fence3 ++ (l ++ fence3)) = fence3 ++ (l ++ fence3) := by
      apply jsTrimBoth_of_ends
      · intro c hc
        rw [show fence3 = backtickChar :: "``".data from by decide] at hc
        cases hc
        exact hws
      · intro c hc
        rw [List.getLast?_append, getLast?_append_fence3 l] at hc
        cases hc
        exact hws
    have hpre7 : fence7.isPrefixOf (fence3 ++ (l ++ fence3)) = false := by
      cases hb : fence7.isPrefixOf (fence3 ++ (l ++ fence3)) with
      | false => rfl
      | true =>
        exfalso
        rw [List.isPrefixOf_iff_prefix] at hb
        rw [show fence7 = fence3 ++ "json".data from by decide] at hb
        rw [List.prefix_append_right_inj fence3] at hb
        have hne2 : ("json".data : List Char) ≠ [] := by decide
        have hhd := prefixHead hb hne2
        rw [List.head?_append_of_ne_nil l hne] at hhd
        cases hx0 : l.head? with
        | none => rw [hx0] at hhd; cases hhd
        | some d =>
          rw [hx0] at hhd
          rw [show ("json".data : List Char).head? = some 'j' from by decide] at hhd
          cases hhd
          exact (hhead 'j' hx0).2 rfl
    have hp3 : fence3.isPrefixOf (fence3 ++ (l ++ fence3)) = true :=
      List.isPrefixOf_iff_prefix.2 (List.prefix_append fence3 (l ++ fence3))
    have hdrop : List.drop 3 (fence3 ++ (l ++ fence3)) = l ++ fence3 := by
      rw [show (3 : Nat) = fence3.length from by decide]
      exact List.drop_left fence3 (l ++ fence3)
    have htake : List.take (l.length + fence3.length - 3) (l ++ fence3) = l := by
      rw [show fence3.length = 3 from by decide, Nat.add_sub_cancel]
      exact List.take_left l fence3
    simp [cleanModelData, htrim, hpre7, hp3, hdrop, hpre3, hsuf3, htake]
  · have hu7 : fence7.isPrefixOf (jsTrimBoth l) = false :=
      isPrefixOf_false_headNe fence7 (jsTrimBoth l) backtickChar (by decide) hth
    have hu3 : fence3.isPrefixOf (jsTrimBoth l) = false :=
      isPrefixOf_false_headNe fence3 (jsTrimBoth l) backtickChar (by decide) hth
    have hs3 : fence3.isSuffixOf (jsTrimBoth l) = false :=
      isSuffixOf_false_lastNe fence3 (jsTrimBoth l) backtickChar (by decide) htl
    simp [cleanModelData, hu7, hu3, hs3, jsTrimBoth_idem]

theorem summarizeDocument_real (apiKey : Option String) (env : GeminiEnv)
    (content title : String) (slideCount : Nat) (customPrompt : Option String) (v : JVal)
    (hmock : shouldUseMock apiKey = false)
    (htext : env.responseText ≠ "")
    (hparse : env.parseJson (cleanModelText env.responseText) = some v) :
    summarizeDocument apiKey env content title slideCount customPrompt =
      (match jget v "slides" with
       | some (JVal.jarr slidesArr) =>
         (match validateSlides 0 slidesArr with
          | Except.error e => Except.error e
          | Except.ok slides => Except.ok ⟨title, slides⟩)
       | _ => Except.error "Invalid response structure: missing slides array") := by
  unfold summarizeDocument
  rw [hmock, if_neg (show ¬(false = true) from by decide)]
  dsimp only
  rw [if_neg htext, hparse]

/-- Claim C6: for a JSON-shaped model response `t` (non-empty, not starting
with a backtick or the letters "json", trimming to something that neither
starts nor ends with a backtick, and parsing successfully), the summarizer
treats `t` wrapped in a leading `` ```json `` or `` ``` `` fence and a
trailing `` ``` `` fence exactly like the unwrapped `t`: the fence is
stripped before parsing and the results coincide. -/
theorem summarizeDocument_fence_invariance
    (apiKey : Option String) (parseJson : String → Option JVal)
    (content title : String) (slideCount : Nat) (customPrompt : Option String)
    (t : String) (v : JVal)
    (hne : t ≠ "")
    (hhead : ∀ c, t.data.head? = some c → c ≠ backtickChar ∧ c ≠ 'j')
    (hth : ∀ c, (jsTrim t).data.head? = some c → c ≠ backtickChar)
    (htl : ∀ c, (jsTrim t).data.getLast? = some c → c ≠ backtickChar)
    (hparse : parseJson (cleanModelText t) = some v) :
    summarizeDocument apiKey ⟨"```json" ++ t ++ "```", parseJson⟩ content title slideCount customPrompt
      = summarizeDocument apiKey ⟨t, parseJson⟩ content title slideCount customPrompt
    ∧ summarizeDocument apiKey ⟨"```" ++ t ++ "```", parseJson⟩ content title slideCount customPrompt
      = summarizeDocument apiKey ⟨t, parseJson⟩ content title slideCount customPrompt := by
  have hld : t.data ≠ [] := by
    intro h0
    exact hne (String.ext h0)
  have hcore := cleanModelData_eq t.data hld hhead hth htl
  have hdata7 : ("```json" ++ t ++ "```").data = fence7 ++ (t.data ++ fence3) := by
    rw [String.data_append, String.data_append]; rfl
  have hdata3 : ("```" ++ t ++ "```").data = fence3 ++ (t.data ++ fence3) := by
    rw [String.data_append, String.data_append]; rfl
  have hclean7 : cleanModelText ("```json" ++ t ++ "```") = cleanModelText t := by
    unfold cleanModelText
    rw [hdata7, hcore.1, hcore.2.2]
  have hclean3 : cleanModelText ("```" ++ t ++ "```") = cleanModelText t := by
    unfold cleanModelText
    rw [hdata3, hcore.2.1, hcore.2.2]
  have hw7 : ("```json" ++ t ++ "```") ≠ "" := by
    intro h0
    have hd := congrArg String.data h0
    rw [hdata7] at hd
    simp at hd
    exact absurd hd.1 (by decide)
  have hw3 : ("```" ++ t ++ "```") ≠ "" := by
    intro h0
    have hd := congrArg String.data h0
    rw [hdata3] at hd
    simp at hd
    exact absurd hd.1 (by decide)
  cases hmock : shouldUseMock apiKey with
  | true => constructor <;> simp [summarizeDocument, hmock]
  | false =>
    constructor
    · rw [summarizeDocument_real apiKey ⟨"```json" ++ t ++ "```", parseJson⟩ content title
          slideCount customPrompt v hmock hw7 (by rw [show (⟨"```json" ++ t ++ "```", parseJson⟩ : GeminiEnv).responseText = "```json" ++ t ++ "```" from rfl, hclean7]; exact hparse)]
      rw [summarizeDocument_real apiKey ⟨t, parseJson⟩ content title
          slideCount customPrompt v hmock hne hparse]
    · rw [summarizeDocument_real apiKey ⟨"```" ++ t ++ "```", parseJson⟩ content title
          slideCount customPrompt v hmock hw3 (by rw [show (⟨"```" ++ t ++ "```", parseJson⟩ : GeminiEnv).responseText = "```" ++ t ++ "```" from rfl, hclean3]; exact hparse)]
      rw [summarizeDocument_real apiKey ⟨t, parseJson⟩ content title
          slideCount customPrompt v hmock hne hparse]

theorem headCond {l : List Char} {d : Char} (hd : l.head? = some d)
    {P : Char → Prop} (hp : P d) : ∀ c, l.head? = some c → P c := by
  intro c hc
  rw [hd] at hc
  cases hc
  exact hp

theorem lastCond {l : List Char} {d : Char} (hd : l.getLast? = some d)
    {P : Char → Prop} (hp : P d) : ∀ c, l.getLast? = some c → P c := by
  intro c hc
  rw [hd] at hc
  cases hc
  exact hp

/-- Witness for the C6 theorem at the JSON text `{"slides":[]}` with a
concrete parse oracle. -/
theorem summarizeDocument_fence_invariance_witness :
    summarizeDocument (some "key")
        ⟨"```json" ++ "\x7b\"slides\":[]\x7d" ++ "```",
         fun s => if s = "\x7b\"slides\":[]\x7d" then
            some (JVal.jobj [("slides", JVal.jarr [])]) else none⟩
        "content" "T" 5 none
      = summarizeDocument (some "key")
        ⟨"\x7b\"slides\":[]\x7d",
         fun s => if s = "\x7b\"slides\":[]\x7d" then
            some (JVal.jobj [("slides", JVal.jarr [])]) else none⟩
        "content" "T" 5 none
    ∧ summarizeDocument (some "key")
        ⟨"```" ++ "\x7b\"slides\":[]\x7d" ++ "```",
         fun s => if s = "\x7b\"slides\":[]\x7d" then
            some (JVal.jobj [("slides", JVal.jarr [])]) else none⟩
        "content" "T" 5 none
      = summarizeDocument (some "key")
        ⟨"\x7b\"slides\":[]\x7d",
         fun s => if s = "\x7b\"slides\":[]\x7d" then
            some (JVal.jobj [("slides", JVal.jarr [])]) else none⟩
        "content" "T" 5 none := by
  exact summarizeDocument_fence_invariance (some "key")
    (fun s => if s = "\x7b\"slides\":[]\x7d" then
        some (JVal.jobj [("slides", JVal.jarr [])]) else none)
    "content" "T" 5 none "\x7b\"slides\":[]\x7d" (JVal.jobj [("slides", JVal.jarr [])])
    (by decide)
    (headCond (show ("\x7b\"slides\":[]\x7d" : String).data.head?
        = some ("\x7b".data.headD ' ') from by decide) (by decide))
    (headCond (show (jsTrim "\x7b\"slides\":[]\x7d").data.head?
        = some ("\x7b".data.headD ' ') from by decide) (by decide))
    (lastCond (show (jsTrim "\x7b\"slides\":[]\x7d").data.getLast?
        = some ("\x7d".data.headD ' ') from by decide) (by decide))
    (by rfl)

/-! ## Substring-scan reflection and prompt facts -/

theorem containsScan_iff (pat : List Char) :
    ∀ l, containsScan pat l = true ↔ pat <:+: l := by
  intro l
  induction l with
  | nil =>
    rw [show containsScan pat [] = pat.isEmpty from rfl, List.isEmpty_iff, List.infix_nil]
  | cons c cs ih =>
    rw [show containsScan pat (c :: cs)
        = (pat.isPrefixOf (c :: cs) || containsScan pat cs) from rfl]
    rw [Bool.or_eq_true, List.isPrefixOf_iff_prefix, ih, List.infix_cons_iff]

theorem not_infix_of_scan {pat l : List Char} (h : containsScan pat l = false) :
    ¬ pat <:+: l := by
  intro hinf
  rw [← containsScan_iff] at hinf
  rw [h] at hinf
  cases hinf

set_option maxRecDepth 4000 in
theorem promptSeg2_split : promptSeg2 = "-slide presentation" ++ (promptSeg2Mid ++ "exactly ") := by
  decide

set_option maxRecDepth 4000 in
theorem promptSeg3_split : promptSeg3 = " slides" ++ promptSeg3Tail := by
  decide

set_option maxRecDepth 8000 in
theorem heading_scan_stem (n : Nat) (h3 : 3 ≤ n) (h10 : n ≤ 10) :
    containsScan "ADDITIONAL INSTRUCTIONS FROM USER:".data
      ((promptSeg1.data ++ ((toString n).data ++ (promptSeg2.data
        ++ ((toString n).data ++ promptSeg3.data)))) ++ promptSeg4.data) = false := by
  interval_cases n <;> decide

set_option maxRecDepth 4000 in
theorem heading_scan_seg5 :
    containsScan "ADDITIONAL INSTRUCTIONS FROM USER:".data promptSeg5.data = false := by
  decide

theorem heading_drop_head :
    ∀ k, k < ("ADDITIONAL INSTRUCTIONS FROM USER:".data).length →
      (("ADDITIONAL INSTRUCTIONS FROM USER:".data).drop k).head? ≠ some '\n' := by
  decide

theorem heading_take_last :
    ∀ k, k < ("ADDITIONAL INSTRUCTIONS FROM USER:".data).length →
      0 < k → (("ADDITIONAL INSTRUCTIONS FROM USER:".data).take k).getLast? ≠ some '\n' := by
  decide

set_option maxRecDepth 8000 in
/-- Claim C5 counterexample: with no `customPrompt` at all, a document
content that itself contains the additional-instructions heading makes the
heading appear in the prompt — so "the heading appears iff customPrompt is
non-empty" fails as stated. -/
theorem buildExecutivePrompt_heading_counterexample :
    "ADDITIONAL INSTRUCTIONS FROM USER:".data <:+:
      (buildExecutivePrompt "ADDITIONAL INSTRUCTIONS FROM USER:" 5 none).data := by
  rw [← containsScan_iff]
  decide

/-- Claim C5 (amended): for every slideCount in [3,10], content and optional
customPrompt, the prompt contains "{slideCount}-slide presentation" and
"exactly {slideCount} slides" and the full content verbatim; when
customPrompt is a non-empty string the prompt contains the
additional-instructions heading followed by that text verbatim; and when
customPrompt is absent or empty — provided the content itself does not
contain the heading — the heading does not appear in the prompt. -/
theorem buildExecutivePrompt_spec
    (content : String) (slideCount : Nat) (customPrompt : Option String)
    (h3 : 3 ≤ slideCount) (h10 : slideCount ≤ 10) :
    (toString slideCount ++ "-slide presentation").data
        <:+: (buildExecutivePrompt content slideCount customPrompt).data
    ∧ ("exactly " ++ toString slideCount ++ " slides").data
        <:+: (buildExecutivePrompt content slideCount customPrompt).data
    ∧ content.data <:+: (buildExecutivePrompt content slideCount customPrompt).data
    ∧ (∀ s, customPrompt = some s → s ≠ "" →
        ("ADDITIONAL INSTRUCTIONS FROM USER:\n" ++ s).data
          <:+: (buildExecutivePrompt content slideCount customPrompt).data)
    ∧ ((customPrompt = none ∨ customPrompt = some "") →
        ¬ ("ADDITIONAL INSTRUCTIONS FROM USER:".data <:+: content.data) →
        ¬ ("ADDITIONAL INSTRUCTIONS FROM USER:".data
            <:+: (buildExecutivePrompt content slideCount customPrompt).data)) := by
  refine ⟨?_, ?_, ?_, ?_, ?_⟩
  · exact infix_of_eq_append
      (show (buildExecutivePrompt content slideCount customPrompt).data
        = promptSeg1.data ++ ((toString slideCount ++ "-slide presentation").data
            ++ ((promptSeg2Mid ++ "exactly ").data ++ ((toString slideCount).data
              ++ (promptSeg3.data ++ ((instructionsBlock customPrompt).data
                ++ (promptSeg4.data ++ (content.data ++ promptSeg5.data))))))) from by
        simp only [buildExecutivePrompt, promptSeg2_split, String.data_append,
          List.append_assoc])
  · exact infix_of_eq_append
      (show (buildExecutivePrompt content slideCount customPrompt).data
        = (promptSeg1.data ++ ((toString slideCount).data
              ++ ("-slide presentation".data ++ promptSeg2Mid.data)))
          ++ (("exactly " ++ toString slideCount ++ " slides").data
            ++ (promptSeg3Tail.data ++ ((instructionsBlock customPrompt).data
              ++ (promptSeg4.data ++ (content.data ++ promptSeg5.data))))) from by
        simp only [buildExecutivePrompt, promptSeg2_split, promptSeg3_split,
          String.data_append, List.append_assoc])
  · exact infix_of_eq_append
      (show (buildExecutivePrompt content slideCount customPrompt).data
        = (promptSeg1.data ++ ((toString slideCount).data ++ (promptSeg2.data
            ++ ((toString slideCount).data ++ (promptSeg3.data
              ++ ((instructionsBlock customPrompt).data ++ promptSeg4.data))))))
          ++ (content.data ++ promptSeg5.data) from by
        simp only [buildExecutivePrompt, String.data_append, List.append_assoc])
  · intro s hcs hsne
    rw [hcs]
    have hb : instructionsBlock (some s)
        = "ADDITIONAL INSTRUCTIONS FROM USER:\n" ++ (s ++ "\n") := by
      simp only [instructionsBlock, instructionsHeading, if_neg hsne, String.append_assoc]
    exact infix_of_eq_append
      (show (buildExecutivePrompt content slideCount (some s)).data
        = (promptSeg1.data ++ ((toString slideCount).data ++ (promptSeg2.data
            ++ ((toString slideCount).data ++ promptSeg3.data))))
          ++ (("ADDITIONAL INSTRUCTIONS FROM USER:\n" ++ s).data
            ++ ("\n".data ++ (promptSeg4.data ++ (content.data ++ promptSeg5.data)))) from by
        simp only [buildExecutivePrompt, hb, String.data_append, List.append_assoc])
  · intro hcp hcontent hinf
    have hblock0 : instructionsBlock customPrompt = "" := by
      rcases hcp with h | h <;> rw [h] <;> rfl
    have hd : (buildExecutivePrompt content slideCount customPrompt).data
        = ((promptSeg1.data ++ ((toString slideCount).data ++ (promptSeg2.data
            ++ ((toString slideCount).data ++ promptSeg3.data)))) ++ promptSeg4.data)
          ++ (content.data ++ promptSeg5.data) := by
      simp only [buildExecutivePrompt, hblock0, String.data_append, List.append_assoc,
        show ("" : String).data = [] from rfl, List.nil_append]
    rw [hd] at hinf
    rcases infix_append_split hinf with h1 | h2 | ⟨k, hk0, hkl, hsuf, hpre⟩
    · exact not_infix_of_scan (heading_scan_stem slideCount h3 h10) h1
    · rcases infix_append_split h2 with h3c | h4 | ⟨k, hk0, hkl, hsuf, hpre⟩
      · exact hcontent h3c
      · exact not_infix_of_scan heading_scan_seg5 h4
      · have hdk : ("ADDITIONAL INSTRUCTIONS FROM USER:".data.drop k) ≠ [] := by
          intro h0
          exact Nat.not_le.2 hkl (List.drop_eq_nil_iff.1 h0)
        have hhd := prefixHead hpre hdk
        rw [show promptSeg5.data.head? = some '\n' from by decide] at hhd
        exact heading_drop_head k hkl hhd.symm
    · have htk : ("ADDITIONAL INSTRUCTIONS FROM USER:".data.take k) ≠ [] := by
        intro h0
        rcases List.take_eq_nil_iff.1 h0 with h0' | h0'
        · exact absurd h0' (Nat.pos_iff_ne_zero.1 hk0)
        · exact absurd h0' (by decide)
      have hlst := suffixLast hsuf htk
      have hA : (((promptSeg1.data ++ ((toString slideCount).data ++ (promptSeg2.data
          ++ ((toString slideCount).data ++ promptSeg3.data)))) ++ promptSeg4.data)).getLast?
          = some '\n' := by
        rw [List.getLast?_append, show promptSeg4.data.getLast? = some '\n' from by decide]
        rfl
      rw [hA] at hlst
      exact heading_take_last k hkl hk0 hlst.symm

/-- Witness for the C5 theorem at slideCount 5 and a non-empty custom
prompt. -/
theorem buildExecutivePrompt_spec_witness :
    ("ADDITIONAL INSTRUCTIONS FROM USER:\n" ++ "Use pirate voice").data
        <:+: (buildExecutivePrompt "Quarterly revenue grew." 5 (some "Use pirate voice")).data
    ∧ ("Quarterly revenue grew." : String).data
        <:+: (buildExecutivePrompt "Quarterly revenue grew." 5 (some "Use pirate voice")).data := by
  have h := buildExecutivePrompt_spec "Quarterly revenue grew." 5 (some "Use pirate voice")
    (by decide) (by decide)
  exact ⟨h.2.2.2.1 "Use pirate voice" rfl (by decide), h.2.2.1⟩
